import Mathlib

/-!
Verification of the data-retrieval and analytical-aggregation layer of the
BuildForBharat agricultural-data repository (`src/tools.py`, `src/config.py`).

The Python code is shallowly embedded:

* Python floats are modelled as rationals (`ℚ`).  Non-finite floats
  (`inf`, `nan`) are outside the model's number domain: the string parser
  below rejects the words `inf`/`nan`, treating them as parse failures.
  No claim under verification distinguishes this case.
* Python scalar values appearing in API records are modelled by `Value`
  (`None`, strings, numbers).
* Exceptions are modelled with `Except` / explicit outcome types; a
  fallible Python expression becomes a function into `Except PyErr _`.
* The network is the free parameter: `make_api_call`'s per-attempt HTTP
  outcomes, and the gateway responses consumed by the fetchers, are
  supplied as environment arguments.

Arithmetic on `ℚ` is performed through executable wrappers (`qadd`, …)
defined via `mkRat`, which the kernel can evaluate; bridge lemmas identify
them with Mathlib's field operations.
-/

/-! ### Executable rational arithmetic -/

/-- Executable addition on `ℚ` (kernel-reducible, unlike `Rat.add`). -/
def qadd (a b : ℚ) : ℚ := mkRat (a.num * b.den + b.num * a.den) (a.den * b.den)

/-- Executable negation on `ℚ`. -/
def qneg (a : ℚ) : ℚ := mkRat (-a.num) a.den

/-- Executable subtraction on `ℚ`. -/
def qsub (a b : ℚ) : ℚ := qadd a (qneg b)

/-- Executable multiplication on `ℚ`. -/
def qmul (a b : ℚ) : ℚ := mkRat (a.num * b.num) (a.den * b.den)

/-- Executable division on `ℚ` (total; division by zero yields zero,
matching Mathlib's convention — the embedded code never divides by zero
on claim-relevant paths). -/
def qdiv (a b : ℚ) : ℚ := Rat.divInt (a.num * b.den) (a.den * b.num)

/-- Executable `≤` test on `ℚ`. -/
def qle (a b : ℚ) : Bool := a.num * b.den ≤ b.num * a.den

/-- Executable `<` test on `ℚ`. -/
def qlt (a b : ℚ) : Bool := a.num * b.den < b.num * a.den

/-- Executable floor on `ℚ`. -/
def qfloor (a : ℚ) : ℤ := a.num / (a.den : ℤ)

/-- Executable embedding of an integer into `ℚ`. -/
def qofInt (n : ℤ) : ℚ := mkRat n 1

/-- Executable absolute value on `ℚ`. -/
def qabs (a : ℚ) : ℚ := if qlt a 0 then qneg a else a

theorem qadd_eq (a b : ℚ) : qadd a b = a + b := by
  rw [qadd, Rat.add_def, Rat.normalize_eq_mkRat]

theorem qneg_eq (a : ℚ) : qneg a = -a := by
  rw [qneg, Rat.mkRat_eq_divInt, ← Rat.neg_def]

theorem qsub_eq (a b : ℚ) : qsub a b = a - b := by
  rw [qsub, qadd_eq, qneg_eq, sub_eq_add_neg]

theorem qmul_eq (a b : ℚ) : qmul a b = a * b := by
  rw [qmul, Rat.mul_def, Rat.normalize_eq_mkRat]

theorem qdiv_eq (a b : ℚ) : qdiv a b = a / b := by
  rw [qdiv, Rat.divInt_eq_div]
  rcases eq_or_ne b 0 with hb | hb
  · subst hb; simp
  · have hbn : (b.num : ℚ) ≠ 0 := Int.cast_ne_zero.mpr (Rat.num_ne_zero.mpr hb)
    have had : ((a.den : ℚ)) ≠ 0 := Nat.cast_ne_zero.mpr a.den_nz
    have ha2 : (a.num : ℚ) = a * a.den := (div_eq_iff had).mp (Rat.num_div_den a)
    have hbd : ((b.den : ℚ)) ≠ 0 := Nat.cast_ne_zero.mpr b.den_nz
    have hb2 : (b.num : ℚ) = b * b.den := (div_eq_iff hbd).mp (Rat.num_div_den b)
    push_cast
    rw [div_eq_div_iff (mul_ne_zero had hbn) hb, ha2, hb2]
    ring

theorem qle_iff (a b : ℚ) : qle a b = true ↔ a ≤ b := by
  rw [qle, Rat.le_def]
  exact decide_eq_true_iff

theorem qlt_iff (a b : ℚ) : qlt a b = true ↔ a < b := by
  rw [qlt, Rat.lt_def]
  exact decide_eq_true_iff

theorem qofInt_eq (n : ℤ) : qofInt n = (n : ℚ) := by
  rw [qofInt, Rat.mkRat_eq_divInt, Nat.cast_one, Rat.divInt_one]

theorem qfloor_eq (a : ℚ) : qfloor a = ⌊a⌋ := by
  rw [qfloor, Rat.floor_def]

theorem qabs_eq (a : ℚ) : qabs a = |a| := by
  rw [qabs]
  by_cases h : a < 0
  · rw [if_pos ((qlt_iff a 0).mpr h), qneg_eq, abs_of_neg h]
  · rw [if_neg (fun hc => h ((qlt_iff a 0).mp hc)), abs_of_nonneg (not_lt.mp h)]

/-! ### Characters and strings (ASCII model of Python's `str` methods) -/

/-- Digit test (ASCII `0`–`9`), used by the numeric-string parsers. -/
def isDig (c : Char) : Bool := 48 ≤ c.toNat && c.toNat ≤ 57

/-- ASCII model of Python's per-character upper-casing. -/
def pyToUpper (c : Char) : Char :=
  if 97 ≤ c.toNat ∧ c.toNat ≤ 122 then Char.ofNat (c.toNat - 32) else c

/-- ASCII model of Python's per-character lower-casing. -/
def pyToLower (c : Char) : Char :=
  if 65 ≤ c.toNat ∧ c.toNat ≤ 90 then Char.ofNat (c.toNat + 32) else c

/-- Whitespace test for `str.strip()` (ASCII whitespace; Python also strips
some Unicode space characters, which no claim exercises). -/
def isSpaceChar (c : Char) : Bool :=
  c = ' ' ∨ c = '\t' ∨ c = '\n' ∨ c = '\r' ∨ c.toNat = 11 ∨ c.toNat = 12

/-- Model of Python `str.strip()`. -/
def pystrip (l : List Char) : List Char :=
  ((l.dropWhile isSpaceChar).reverse.dropWhile isSpaceChar).reverse

/-- Model of Python `str.upper()`. -/
def pyupper (l : List Char) : List Char := l.map pyToUpper

/-- Model of Python `str.lower()`. -/
def pylower (l : List Char) : List Char := l.map pyToLower

theorem mem_pystrip {c : Char} {l : List Char} (h : c ∈ pystrip l) : c ∈ l := by
  rw [pystrip, List.mem_reverse] at h
  exact (List.dropWhile_sublist _).mem ((List.mem_reverse).mp ((List.dropWhile_sublist _).mem h))

/-! ### Numeric-string parsing (model of Python `float()` / `int()` on strings)

The grammar modelled is sign, decimal digits with optional fraction part and
optional exponent.  Simplifications relative to CPython, none of which any
claim distinguishes: digit-group underscores are not accepted, and the
non-finite spellings `inf`/`infinity`/`nan` are treated as parse failures
(non-finite floats are outside the model's number domain). -/

/-- Numeric value of a digit string. -/
def digitsToNat (l : List Char) : ℕ := l.foldl (fun acc c => 10 * acc + (c.toNat - 48)) 0

/-- Parse a nonempty all-digit string as a natural number. -/
def intDigits (t : List Char) : Option ℤ :=
  if t ≠ [] ∧ t.all isDig then some (digitsToNat t) else none

/-- Parse the exponent part (after `e`/`E`): optional sign, then digits. -/
def parseExp : List Char → Option ℤ
  | '+' :: r => intDigits r
  | '-' :: r => (intDigits r).map Neg.neg
  | r => intDigits r

/-- Executable power of ten in `ℚ`. -/
def qpow10 (k : ℤ) : ℚ :=
  if 0 ≤ k then qofInt ((10 : ℤ) ^ k.toNat) else mkRat 1 (10 ^ (-k).toNat)

/-- Exact rational value of `ip . fp` for digit strings `ip`, `fp`. -/
def mantissa (ip fp : List Char) : ℚ :=
  mkRat ((digitsToNat ip : ℤ) * (10 : ℤ) ^ fp.length + (digitsToNat fp : ℤ)) (10 ^ fp.length)

/-- Parse what follows the integer-part digits `ip` of a float literal. -/
def parseFrac (ip : List Char) : List Char → Option ℚ
  | [] => if ip = [] then none else some (mantissa ip [])
  | '.' :: r2 =>
    let fp := r2.takeWhile isDig
    let r3 := r2.dropWhile isDig
    if ip = [] ∧ fp = [] then none
    else
      match r3 with
      | [] => some (mantissa ip fp)
      | c :: r4 =>
        if c = 'e' ∨ c = 'E' then (parseExp r4).map (fun k => qmul (mantissa ip fp) (qpow10 k))
        else none
  | c :: r4 =>
    if (c = 'e' ∨ c = 'E') ∧ ip ≠ [] then
      (parseExp r4).map (fun k => qmul (mantissa ip []) (qpow10 k))
    else none

/-- Parse an unsigned float literal. -/
def parseUnsigned (t : List Char) : Option ℚ :=
  parseFrac (t.takeWhile isDig) (t.dropWhile isDig)

/-- Parse a float literal with optional sign (applied to a stripped string). -/
def parseNum : List Char → Option ℚ
  | '+' :: r => parseUnsigned r
  | '-' :: r => (parseUnsigned r).map (fun q => qneg q)
  | r => parseUnsigned r

theorem parseFrac_digit {ip rest : List Char} {q : ℚ}
    (h : parseFrac ip rest = some q) : ip ≠ [] ∨ ∃ c ∈ rest, isDig c = true := by
  rw [parseFrac.eq_def] at h
  split at h
  · split at h
    · simp at h
    · next hip => exact Or.inl hip
  · next r2 =>
    simp only [] at h
    split at h
    · simp at h
    · next hcond =>
      rcases not_and_or.mp hcond with hip | hfp
      · exact Or.inl hip
      · rcases hfp' : r2.takeWhile isDig with _ | ⟨e, fp'⟩
        · exact absurd hfp' hfp
        · have he : e ∈ r2.takeWhile isDig := by rw [hfp']; exact List.mem_cons_self _ _
          exact Or.inr ⟨e, List.mem_cons_of_mem _ ((List.takeWhile_sublist _).mem he),
            List.mem_takeWhile_imp he⟩
  · split at h
    · next hcond => exact Or.inl hcond.2
    · simp at h

theorem parseUnsigned_has_digit {t : List Char} {q : ℚ}
    (h : parseUnsigned t = some q) : ∃ c ∈ t, isDig c = true := by
  rw [parseUnsigned] at h
  rcases parseFrac_digit h with hip | ⟨c, hc, hdig⟩
  · rcases hip' : t.takeWhile isDig with _ | ⟨c, ip'⟩
    · exact absurd hip' hip
    · have hc : c ∈ t.takeWhile isDig := by rw [hip']; exact List.mem_cons_self _ _
      exact ⟨c, (List.takeWhile_sublist _).mem hc, List.mem_takeWhile_imp hc⟩
  · exact ⟨c, (List.dropWhile_sublist _).mem hc, hdig⟩

theorem parseNum_has_digit {t : List Char} {q : ℚ}
    (h : parseNum t = some q) : ∃ c ∈ t, isDig c = true := by
  rw [parseNum.eq_def] at h
  split at h
  · next r =>
    obtain ⟨d, hd, hdig⟩ := parseUnsigned_has_digit h
    exact ⟨d, List.mem_cons_of_mem _ hd, hdig⟩
  · next r =>
    rcases Option.map_eq_some'.mp h with ⟨q', ho, -⟩
    obtain ⟨d, hd, hdig⟩ := parseUnsigned_has_digit ho
    exact ⟨d, List.mem_cons_of_mem _ hd, hdig⟩
  · exact parseUnsigned_has_digit h

/-! ### Python scalar values -/

/-- A Python scalar value as it appears in API records: `None`, a string,
or a (finite) number. -/
inductive Value
  | none
  | str (s : String)
  | num (q : ℚ)
deriving DecidableEq

/-- Model of Python exceptions relevant to the embedded code. -/
inductive PyErr
  | valueError (msg : String)
  | typeError (msg : String)
deriving DecidableEq

/-- Model of Python `str(e)` for an exception `e`. -/
def PyErr.text : PyErr → String
  | .valueError m => m
  | .typeError m => m

/-- Digit rendering used by the numeric `str()` model (fuel-based so that
the kernel can evaluate it). -/
def natCharsAux : ℕ → ℕ → List Char
  | 0, _ => []
  | fuel + 1, n =>
    if n < 10 then [Nat.digitChar n]
    else natCharsAux fuel (n / 10) ++ [Nat.digitChar (n % 10)]

/-- Decimal rendering of a natural number. -/
def natChars (n : ℕ) : List Char := natCharsAux (n + 1) n

/-- Model of Python `str()` on a number.  The exact CPython float
rendering is abstracted; only the rendering's alphabet (digits, sign,
separators — never letters that case-map to `N`) matters to any claim. -/
def qChars (q : ℚ) : List Char :=
  (if q.num < 0 then ['-'] else []) ++ natChars q.num.natAbs ++
    (if q.den = 1 then [] else '/' :: natChars q.den)

/-- Model of Python `str(value)`. -/
def pystr : Value → List Char
  | .none => "None".data
  | .str s => s.data
  | .num q => qChars q

/-- Model of Python `float(value)`: raises `TypeError` on `None` and
`ValueError` on an unparsable string. -/
def pyFloatExc : Value → Except PyErr ℚ
  | .none => .error (.typeError "float() argument must be a string or a real number, not NoneType")
  | .num q => .ok q
  | .str s =>
    match parseNum (pystrip s.data) with
    | some q => .ok q
    | Option.none => .error (.valueError ("could not convert string to float: " ++ s))

/-- Model of Python `int(value)`: truncation toward zero on numbers,
strict integer-literal parsing on strings, `TypeError` on `None`. -/
def pyIntExc : Value → Except PyErr ℤ
  | .none => .error (.typeError "int() argument must be a string or a number, not NoneType")
  | .num q => .ok (q.num.tdiv q.den)
  | .str s =>
    match pystrip s.data with
    | '+' :: r => match intDigits r with
      | some n => .ok n
      | Option.none => .error (.valueError ("invalid literal for int() with base 10: " ++ s))
    | '-' :: r => match intDigits r with
      | some n => .ok (-n)
      | Option.none => .error (.valueError ("invalid literal for int() with base 10: " ++ s))
    | r => match intDigits r with
      | some n => .ok n
      | Option.none => .error (.valueError ("invalid literal for int() with base 10: " ++ s))

/-- Model of Python `value == s` for a string literal `s` (cross-type
equality is `False` in Python). -/
def valueEqStr (v : Value) (s : String) : Bool :=
  match v with
  | .str t => t = s
  | _ => false

/-- The placeholder set of the first (shadowed) sanitizer definition,
`['NA', 'N/A', 'NULL']`, compared after `strip().upper()`. -/
def placeholders : List (List Char) := ["NA".data, "N/A".data, "NULL".data]

/-- Embedding of the first textual definition of `safe_float_convert`
(src/tools.py lines 13–23), as an explicit try/except: the `except
(ValueError, TypeError)` clause returns the default. -/
def safe_float_convert_v1_try (value : Value) (default : ℚ) : Except PyErr ℚ :=
  if value = Value.none ∨ valueEqStr value "" = true ∨ pyupper (pystrip (pystr value)) ∈ placeholders then
    .ok default
  else
    match pyFloatExc value with
    | .ok x => .ok x
    | .error (.valueError _) => .ok default
    | .error (.typeError _) => .ok default

/-- The first `safe_float_convert` as a plain function (an uncaught
exception would fall back to the default, but `safe_float_convert_v1_try`
is proved below to never yield an error). -/
def safe_float_convert_v1 (value : Value) (default : ℚ) : ℚ :=
  match safe_float_convert_v1_try value default with
  | .ok x => x
  | .error _ => default

/-- Embedding of the second textual definition of `safe_float_convert`
(src/tools.py lines 125–132) — the binding in effect at every call site,
since it shadows the first at module load. -/
def safe_float_convert_try (value : Value) (default : ℚ) : Except PyErr ℚ :=
  if value = Value.none ∨ valueEqStr value "" = true ∨ valueEqStr value "NA" = true ∨ valueEqStr value "N/A" = true then
    .ok default
  else
    match pyFloatExc value with
    | .ok x => .ok x
    | .error (.valueError _) => .ok default
    | .error (.typeError _) => .ok default

/-- The effective `safe_float_convert` as a plain function. -/
def safe_float_convert (value : Value) (default : ℚ) : ℚ :=
  match safe_float_convert_try value default with
  | .ok x => x
  | .error _ => default

/-- C1: the sanitizer (`safe_float_convert`, as bound at call time — the
second definition) never raises; it returns the caller's default on
`None`, `""`, `"NA"`, `"na"`, `"N/A"`, `"NULL"`, `"abc"` (and on any
parse failure), and returns the parsed float for valid numeric inputs
(`sanitize("3.5", 0) == 3.5`; numbers pass through unchanged). -/
theorem safe_float_convert_sanitizer_contract :
    (∀ v d, ∃ x, safe_float_convert_try v d = .ok x) ∧
    (∀ d : ℚ,
      safe_float_convert Value.none d = d ∧
      safe_float_convert (Value.str "") d = d ∧
      safe_float_convert (Value.str "NA") d = d ∧
      safe_float_convert (Value.str "na") d = d ∧
      safe_float_convert (Value.str "N/A") d = d ∧
      safe_float_convert (Value.str "NULL") d = d ∧
      safe_float_convert (Value.str "abc") d = d) ∧
    safe_float_convert (Value.str "3.5") 0 = 7 / 2 ∧
    (∀ q d, safe_float_convert (Value.num q) d = q) := by
  refine ⟨?_, ?_, ?_, ?_⟩
  · intro v d
    cases v with
    | none => exact ⟨d, rfl⟩
    | num q => exact ⟨q, rfl⟩
    | str s =>
      by_cases hc : Value.str s = Value.none ∨ valueEqStr (Value.str s) "" = true ∨
          valueEqStr (Value.str s) "NA" = true ∨ valueEqStr (Value.str s) "N/A" = true
      · exact ⟨d, by rw [safe_float_convert_try, if_pos hc]⟩
      · rcases hpf : pyFloatExc (Value.str s) with e | x
        · rcases e with m | m
          · exact ⟨d, by rw [safe_float_convert_try, if_neg hc, hpf]⟩
          · exact ⟨d, by rw [safe_float_convert_try, if_neg hc, hpf]⟩
        · exact ⟨x, by rw [safe_float_convert_try, if_neg hc, hpf]⟩
  · exact fun d => ⟨rfl, rfl, rfl, rfl, rfl, rfl, rfl⟩
  · norm_num [show safe_float_convert (Value.str "3.5") 0 = mkRat 7 2 from rfl]
  · exact fun q d => rfl

/-! ### Extensional equality of the two sanitizer definitions (C10) -/

theorem pyToUpper_digit {c : Char} (h : isDig c = true) : pyToUpper c = c := by
  simp only [isDig, Bool.and_eq_true, decide_eq_true_eq] at h
  rw [pyToUpper, if_neg (by omega)]

theorem placeholders_no_digit : ∀ w ∈ placeholders, ∀ c ∈ w, isDig c = false := by decide

theorem placeholders_have_N : ∀ w ∈ placeholders, 'N' ∈ w := by decide

/-- If the strip-upper of a string is one of the first definition's
placeholders, the float parse of that string fails. -/
theorem placeholder_parse_none {s : String}
    (h : pyupper (pystrip s.data) ∈ placeholders) : parseNum (pystrip s.data) = none := by
  rcases hp : parseNum (pystrip s.data) with _ | q
  · rfl
  · exfalso
    obtain ⟨c, hc, hdig⟩ := parseNum_has_digit hp
    have hcu : pyToUpper c ∈ pyupper (pystrip s.data) := List.mem_map_of_mem _ hc
    have hfalse := placeholders_no_digit _ h _ hcu
    rw [pyToUpper_digit hdig, hdig] at hfalse
    exact Bool.noConfusion hfalse

theorem digitChar_toUpper_ne_N : ∀ k, pyToUpper (Nat.digitChar k) ≠ 'N' := by
  intro k
  rcases k with _|_|_|_|_|_|_|_|_|_|_|_|_|_|_|_|k
  · decide
  · decide
  · decide
  · decide
  · decide
  · decide
  · decide
  · decide
  · decide
  · decide
  · decide
  · decide
  · decide
  · decide
  · decide
  · decide
  · unfold Nat.digitChar
    repeat rw [if_neg (by omega)]
    decide

theorem natCharsAux_toUpper_ne_N : ∀ f n, ∀ c ∈ natCharsAux f n, pyToUpper c ≠ 'N' := by
  intro f
  induction f with
  | zero => intro n c hc; simp [natCharsAux] at hc
  | succ f ih =>
    intro n c hc
    rw [natCharsAux] at hc
    by_cases h10 : n < 10
    · rw [if_pos h10] at hc
      simp at hc
      subst hc
      exact digitChar_toUpper_ne_N n
    · rw [if_neg h10] at hc
      rcases List.mem_append.mp hc with h1 | h2
      · exact ih _ _ h1
      · simp at h2
        subst h2
        exact digitChar_toUpper_ne_N _

theorem qChars_toUpper_ne_N : ∀ q : ℚ, ∀ c ∈ qChars q, pyToUpper c ≠ 'N' := by
  intro q c hc
  rw [qChars] at hc
  rcases List.mem_append.mp hc with h1 | h2
  · rcases List.mem_append.mp h1 with h0 | h1'
    · split at h0
      · simp at h0; subst h0; decide
      · simp at h0
    · exact natCharsAux_toUpper_ne_N _ _ _ h1'
  · split at h2
    · simp at h2
    · rcases List.mem_cons.mp h2 with h | h
      · subst h; decide
      · exact natCharsAux_toUpper_ne_N _ _ _ h

/-- The strip-upper of a rendered number is never a placeholder word. -/
theorem num_not_placeholder (q : ℚ) :
    pyupper (pystrip (pystr (Value.num q))) ∉ placeholders := by
  intro h
  have hN : 'N' ∈ pyupper (pystrip (qChars q)) := placeholders_have_N _ h
  obtain ⟨c, hc, hcu⟩ := List.mem_map.mp hN
  exact qChars_toUpper_ne_N q c (mem_pystrip hc) hcu

/-- C10: the two textual definitions of `safe_float_convert` (the first
with a case-insensitive stripped placeholder set and the second with a
case-sensitive check for only `NA`/`N/A`) are extensionally equal on all
inputs (`None`, strings, numbers) and all defaults: the extra
placeholders of the first definition are exactly strings whose float
parse fails, which the second definition sends to the default anyway. -/
theorem safe_float_convert_versions_extensionally_equal :
    ∀ v d, safe_float_convert_v1_try v d = safe_float_convert_try v d ∧
      safe_float_convert_v1 v d = safe_float_convert v d := by
  intro v d
  have key : safe_float_convert_v1_try v d = safe_float_convert_try v d := by
    cases v with
    | none => rfl
    | num q =>
      have h1 : ¬(Value.num q = Value.none ∨ valueEqStr (Value.num q) "" = true ∨
          pyupper (pystrip (pystr (Value.num q))) ∈ placeholders) := by
        rintro (h | h | h)
        · exact Value.noConfusion h
        · simp [valueEqStr] at h
        · exact num_not_placeholder q h
      rw [safe_float_convert_v1_try, if_neg h1]
      rfl
    | str s =>
      by_cases hA : pyupper (pystrip s.data) ∈ placeholders
      · have h1 : (Value.str s = Value.none ∨ valueEqStr (Value.str s) "" = true ∨
            pyupper (pystrip (pystr (Value.str s))) ∈ placeholders) := Or.inr (Or.inr hA)
        rw [safe_float_convert_v1_try, if_pos h1, safe_float_convert_try]
        by_cases h2 : Value.str s = Value.none ∨ valueEqStr (Value.str s) "" = true ∨
            valueEqStr (Value.str s) "NA" = true ∨ valueEqStr (Value.str s) "N/A" = true
        · rw [if_pos h2]
        · rw [if_neg h2]
          have hp : parseNum (pystrip s.data) = none := placeholder_parse_none hA
          simp only [pyFloatExc, hp]
      · by_cases hE : s = ""
        · subst hE; rfl
        · have h1 : ¬(Value.str s = Value.none ∨ valueEqStr (Value.str s) "" = true ∨
              pyupper (pystrip (pystr (Value.str s))) ∈ placeholders) := by
            rintro (h | h | h)
            · exact Value.noConfusion h
            · simp [valueEqStr] at h; exact hE h
            · exact hA h
          have h2 : ¬(Value.str s = Value.none ∨ valueEqStr (Value.str s) "" = true ∨
              valueEqStr (Value.str s) "NA" = true ∨ valueEqStr (Value.str s) "N/A" = true) := by
            rintro (h | h | h | h)
            · exact Value.noConfusion h
            · simp [valueEqStr] at h; exact hE h
            · simp [valueEqStr] at h; subst h; exact hA (by decide)
            · simp [valueEqStr] at h; subst h; exact hA (by decide)
          rw [safe_float_convert_v1_try, if_neg h1, safe_float_convert_try, if_neg h2]
  refine ⟨key, ?_⟩
  rw [safe_float_convert_v1, key]
  rfl

/-! ### Records and dictionaries -/

/-- A government API record: an ordered mapping from field names to scalar
values (a Python `dict` with string keys). -/
abbrev Record := List (String × Value)

/-- Ordered-dictionary insertion with Python semantics: overwrite in place
if the key exists, else append at the end. -/
def dinsert {κ α : Type} [DecidableEq κ] : List (κ × α) → κ → α → List (κ × α)
  | [], k, v => [(k, v)]
  | (k', v') :: rest, k, v =>
    if k' = k then (k, v) :: rest else (k', v') :: dinsert rest k v

/-- Model of Python `dict.get(key, default)`. -/
def dget {κ α : Type} [DecidableEq κ] (d : List (κ × α)) (k : κ) (dflt : α) : α :=
  match d.find? (fun p => decide (p.1 = k)) with
  | some p => p.2
  | none => dflt

/-- The keys of a dictionary, in insertion order. -/
def dkeys {κ α : Type} (d : List (κ × α)) : List κ := d.map Prod.fst

/-- Model of Python `record.get(field, default)`. -/
def rget (r : Record) (k : String) (d : Value) : Value := dget r k d

/-- Model of Python `record[field] = value`. -/
def rset (r : Record) (k : String) (v : Value) : Record := dinsert r k v

theorem dget_dinsert_ne {κ α : Type} [DecidableEq κ] (d : List (κ × α)) (k k' : κ) (v : α)
    (dflt : α) (h : k ≠ k') : dget (dinsert d k v) k' dflt = dget d k' dflt := by
  induction d with
  | nil => simp [dinsert, dget, List.find?, decide_eq_false h]
  | cons p rest ih =>
    rcases p with ⟨pk, pv⟩
    rw [dinsert]
    by_cases hpk : pk = k
    · rw [if_pos hpk, hpk]
      simp [dget, List.find?, decide_eq_false h]
    · rw [if_neg hpk]
      by_cases hpk' : pk = k'
      · simp [dget, List.find?, hpk']
      · simp only [dget, List.find?] at ih ⊢
        simp [decide_eq_false hpk', ih]

/-- Uniform result shape of the gateway and the fetchers. -/
structure ApiResult where
  success : Bool
  data : List Record
  total : ℕ
  error : String
  url : String
deriving DecidableEq

/-! ### The API gateway (`make_api_call`, src/tools.py lines 29–88)

The network is modelled by an environment `env : ℕ → Attempt` giving the
outcome of each HTTP attempt: either a `requests` exception
(`RequestException`, which includes connection errors, timeouts,
`raise_for_status` errors and JSON-decode errors — everything the
`except` clause catches) or a parsed JSON response, pre-split into the
fields the code reads (`status`, `records`, `total`, `message`, plus the
resolved request URL). -/

/-- Outcome of one HTTP attempt. -/
inductive Attempt
  | exc (msg : String)
  | resp (status : Option String) (records : List Record) (total : ℕ)
         (message : Option String) (url : String)

/-- `config.MAX_RETRIES`. -/
def MAX_RETRIES : ℕ := 3

/-- Classification of a parsed response body (the `status == 'ok'` /
`'error'` / other-shape branches).  Fields a branch's Python dict does not
carry are defaulted (`[]`, `0`, `""`); the code never reads them on those
branches. -/
def classifyResponse (status : Option String) (records : List Record) (total : ℕ)
    (message : Option String) (url : String) : ApiResult :=
  if status = some "ok" then
    { success := true, data := records, total := total, error := "", url := url }
  else if status = some "error" then
    { success := false, data := [], total := 0,
      error := "API Error: " ++ message.getD "Unknown error", url := url }
  else
    { success := false, data := [], total := 0,
      error := "No data found for the given filters", url := url }

/-- The retry loop of `make_api_call` over the remaining attempt indices. -/
def apiLoop (env : ℕ → Attempt) (url0 : String) : List ℕ → ApiResult
  | [] => { success := false, data := [], total := 0, error := "Max retries exceeded", url := "" }
  | i :: rest =>
    match env i with
    | .resp st recs tot msg u => classifyResponse st recs tot msg u
    | .exc m =>
      if i = MAX_RETRIES - 1 then
        { success := false, data := [], total := 0,
          error := "API Request Failed: " ++ m, url := url0 }
      else apiLoop env url0 rest

/-- Embedding of `make_api_call` (the request parameters are abstracted
into the environment; `url0` is the request URL reported on exhaustion). -/
def make_api_call (env : ℕ → Attempt) (url0 : String) : ApiResult :=
  apiLoop env url0 (List.range MAX_RETRIES)

/-- C6: `make_api_call` never raises to its caller — every failure is a
result value with `success = false`.  A transport-level failure
(`RequestException`) is retried; after `MAX_RETRIES` consecutive failures
the result reports the last failure's reason.  A parsed response — in
particular a well-formed API error (`status == 'error'`) and any other
non-`ok` shape — is classified and returned immediately at the first
attempt that produced one, with no further retries. -/
theorem make_api_call_retry_contract (env : ℕ → Attempt) (url0 : String) :
    (∀ i, i < MAX_RETRIES →
      (∀ j, j < i → ∃ m, env j = .exc m) →
      ∀ st recs tot msg u, env i = .resp st recs tot msg u →
        make_api_call env url0 = classifyResponse st recs tot msg u) ∧
    ((∀ i, i < MAX_RETRIES → ∃ m, env i = .exc m) →
      ∀ m, env (MAX_RETRIES - 1) = .exc m →
        make_api_call env url0 =
          { success := false, data := [], total := 0,
            error := "API Request Failed: " ++ m, url := url0 }) ∧
    (∀ st recs tot msg u, st ≠ some "ok" →
      (classifyResponse st recs tot msg u).success = false) := by
  have hr : make_api_call env url0 = apiLoop env url0 [0, 1, 2] := rfl
  refine ⟨?_, ?_, ?_⟩
  · intro i hi hprev st recs tot msg u henv
    have hi' : i < 3 := hi
    have h012 : i = 0 ∨ i = 1 ∨ i = 2 := by omega
    rcases h012 with h | h | h
    · subst h
      rw [hr]
      simp [apiLoop, henv]
    · subst h
      obtain ⟨m0, h0⟩ := hprev 0 (by norm_num)
      rw [hr]
      simp [apiLoop, h0, henv, MAX_RETRIES]
    · subst h
      obtain ⟨m0, h0⟩ := hprev 0 (by norm_num)
      obtain ⟨m1, h1⟩ := hprev 1 (by norm_num)
      rw [hr]
      simp [apiLoop, h0, h1, henv, MAX_RETRIES]
  · intro hall m h2
    obtain ⟨m0, h0⟩ := hall 0 (by norm_num [MAX_RETRIES])
    obtain ⟨m1, h1⟩ := hall 1 (by norm_num [MAX_RETRIES])
    have h2' : env 2 = Attempt.exc m := h2
    rw [hr]
    simp [apiLoop, h0, h1, h2', MAX_RETRIES]
  · intro st recs tot msg u hne
    rw [classifyResponse, if_neg hne]
    by_cases he : st = some "error"
    · rw [if_pos he]
    · rw [if_neg he]

/-- Witness for the retry contract: a concrete environment failing twice
and answering with an `ok` response on the third attempt, a concrete
all-failure environment, and a concrete error-status classification. -/
theorem make_api_call_retry_contract_witness :
    make_api_call
        (fun i => if i = 0 then .exc "timeout" else if i = 1 then .exc "conn reset"
          else .resp (some "ok") [] 0 Option.none "http://u")
        "http://base" =
      classifyResponse (some "ok") [] 0 Option.none "http://u" ∧
    make_api_call (fun i => .exc ("boom " ++ toString i)) "http://base" =
      { success := false, data := [], total := 0,
        error := "API Request Failed: " ++ "boom 2", url := "http://base" } ∧
    (classifyResponse (some "error") [] 0 (some "bad filter") "http://u").success = false := by
  refine ⟨?_, ?_, ?_⟩
  · exact (make_api_call_retry_contract
        (fun i => if i = 0 then .exc "timeout" else if i = 1 then .exc "conn reset"
          else .resp (some "ok") [] 0 Option.none "http://u") "http://base").1
      2 (by norm_num [MAX_RETRIES])
      (by intro j hj
          have : j = 0 ∨ j = 1 := by omega
          rcases this with h | h
          · subst h; exact ⟨"timeout", rfl⟩
          · subst h; exact ⟨"conn reset", rfl⟩)
      (some "ok") [] 0 Option.none "http://u" rfl
  · exact (make_api_call_retry_contract (fun i => .exc ("boom " ++ toString i)) "http://base").2.1
      (fun i _ => ⟨"boom " ++ toString i, rfl⟩) "boom 2" rfl
  · exact (make_api_call_retry_contract (fun _ => .exc "x") "http://base").2.2 (some "error") [] 0
      (some "bad filter") "http://u" (by decide)

/-! ### Crop fetcher (`fetch_crop_data`, src/tools.py lines 91–122) -/

/-- `config.CURRENT_ANALYSIS_YEAR` — the fixed configured analysis year
(set to 2010 for API data availability; deliberately not "now"). -/
def CURRENT_ANALYSIS_YEAR : ℤ := 2010

/-- The in-place cleaning of a retained crop record: production, then
area, through the sanitizer (`r.get` defaults to `None`). -/
def cleanCropRecord (r : Record) : Record :=
  let r1 := rset r "production_" (Value.num (safe_float_convert (rget r "production_" Value.none) 0))
  rset r1 "area_" (Value.num (safe_float_convert (rget r1 "area_" Value.none) 0))

/-- One step of the crop year-filter loop; `Option.none` models the
`except: continue` taken when `int()` raises, or an out-of-window year. -/
def cropKeep (start_year end_year : ℤ) (r : Record) : Option Record :=
  match pyIntExc (rget r "crop_year" (Value.num 0)) with
  | .error _ => Option.none
  | .ok y =>
    if start_year ≤ y ∧ y ≤ end_year then some (cleanCropRecord r) else Option.none

/-- Embedding of `fetch_crop_data`: `gw` is the gateway response for the
state/crop filters (the network side of `make_api_call` is the free
environment). -/
def fetch_crop_data (years : ℤ) (gw : ApiResult) : ApiResult :=
  if gw.success then
    let filtered := gw.data.filterMap
      (cropKeep (CURRENT_ANALYSIS_YEAR - years + 1) CURRENT_ANALYSIS_YEAR)
    { gw with data := filtered, total := filtered.length }
  else gw

/-- Spec-side predicate, from the claim's words: the record's year field
parses as an integer lying in the closed interval
`[CURRENT_ANALYSIS_YEAR - years + 1, CURRENT_ANALYSIS_YEAR]`. -/
def yearWindowOK (years : ℤ) (r : Record) : Bool :=
  match pyIntExc (rget r "crop_year" (Value.num 0)) with
  | .ok y => decide (CURRENT_ANALYSIS_YEAR - years + 1 ≤ y) && decide (y ≤ CURRENT_ANALYSIS_YEAR)
  | .error _ => false

theorem cropKeep_eq_yearWindow (years : ℤ) (r : Record) :
    cropKeep (CURRENT_ANALYSIS_YEAR - years + 1) CURRENT_ANALYSIS_YEAR r
      = if yearWindowOK years r then some (cleanCropRecord r) else Option.none := by
  rcases hp : pyIntExc (rget r "crop_year" (Value.num 0)) with e | y
  · simp [cropKeep, yearWindowOK, hp]
  · simp only [cropKeep, yearWindowOK, hp]
    by_cases h1 : CURRENT_ANALYSIS_YEAR - years + 1 ≤ y ∧ y ≤ CURRENT_ANALYSIS_YEAR
    · rw [if_pos h1, if_pos (by simp [h1.1, h1.2])]
    · rw [if_neg h1, if_neg (by simp only [Bool.and_eq_true, decide_eq_true_eq]; exact h1)]

theorem filterMap_cropKeep (years : ℤ) (l : List Record) :
    l.filterMap (cropKeep (CURRENT_ANALYSIS_YEAR - years + 1) CURRENT_ANALYSIS_YEAR)
      = (l.filter (yearWindowOK years)).map cleanCropRecord := by
  induction l with
  | nil => rfl
  | cons r rest ih =>
    rw [List.filterMap_cons, List.filter_cons, cropKeep_eq_yearWindow]
    by_cases hw : yearWindowOK years r = true
    · simp [hw, ih]
    · simp only [Bool.not_eq_true] at hw
      simp [hw, ih]

/-- C4: on a successful gateway response, `fetch_crop_data` retains
exactly the records whose year field parses as an integer in the closed
window `[CURRENT_ANALYSIS_YEAR - years + 1, CURRENT_ANALYSIS_YEAR]`
(cleaning each retained record in place), recomputes `total` as the
retained count, and for `years = 5` the window is exactly `[2006, 2010]`
(admitting 2006 and 2010, rejecting 2005 and 2011). -/
theorem fetch_crop_data_year_window (years : ℤ) (gw : ApiResult) (h : gw.success = true) :
    (fetch_crop_data years gw).data
        = (gw.data.filter (yearWindowOK years)).map cleanCropRecord ∧
    (fetch_crop_data years gw).total = (fetch_crop_data years gw).data.length ∧
    (∀ r : Record, yearWindowOK 5 r = true ↔
      ∃ y, pyIntExc (rget r "crop_year" (Value.num 0)) = .ok y ∧ 2006 ≤ y ∧ y ≤ 2010) := by
  refine ⟨?_, ?_, ?_⟩
  · rw [fetch_crop_data, if_pos h]
    exact filterMap_cropKeep years gw.data
  · rw [fetch_crop_data, if_pos h]
  · intro r
    rcases hp : pyIntExc (rget r "crop_year" (Value.num 0)) with e | y
    · simp [yearWindowOK, hp]
    · simp only [yearWindowOK, CURRENT_ANALYSIS_YEAR, hp, Bool.and_eq_true, decide_eq_true_eq,
        Except.ok.injEq]
      constructor
      · rintro ⟨h1, h2⟩
        exact ⟨y, rfl, by omega, h2⟩
      · rintro ⟨y_1, hy_1, h1, h2⟩
        subst hy_1
        exact ⟨by omega, h2⟩

/-- Witness for the year-window theorem: a concrete successful gateway
response with years 2005, 2006, 2010, 2011 retains exactly 2006 / 2010. -/
theorem fetch_crop_data_year_window_witness :
    (fetch_crop_data 5
        { success := true,
          data := [[("crop_year", Value.str "2005")], [("crop_year", Value.str "2006")],
            [("crop_year", Value.str "2010")], [("crop_year", Value.str "2011")]],
          total := 4, error := "", url := "u" }).data
      = [cleanCropRecord [("crop_year", Value.str "2006")],
         cleanCropRecord [("crop_year", Value.str "2010")]] ∧
    (fetch_crop_data 5
        { success := true,
          data := [[("crop_year", Value.str "2005")], [("crop_year", Value.str "2006")],
            [("crop_year", Value.str "2010")], [("crop_year", Value.str "2011")]],
          total := 4, error := "", url := "u" }).total = 2 := by
  have h := fetch_crop_data_year_window 5
    { success := true,
      data := [[("crop_year", Value.str "2005")], [("crop_year", Value.str "2006")],
        [("crop_year", Value.str "2010")], [("crop_year", Value.str "2011")]],
      total := 4, error := "", url := "u" } rfl
  constructor
  · rw [h.1]
    rfl
  · rw [h.2.1, h.1]
    rfl

/-! ### Rainfall fetcher (`fetch_rainfall_data`, src/tools.py lines 135–178) -/

/-- One step of the rainfall year-filter loop; a retained record has its
`annual` field sanitized in place. -/
def rainKeep (start_year end_year : ℤ) (r : Record) : Option Record :=
  match pyIntExc (rget r "year" (Value.num 0)) with
  | .error _ => Option.none
  | .ok y =>
    if start_year ≤ y ∧ y ≤ end_year then
      some (rset r "annual" (Value.num (safe_float_convert (rget r "annual" Value.none) 0)))
    else Option.none

/-- One subdivision iteration of `fetch_rainfall_data`: on success the
year-filtered records and the url are appended; on failure the error
string is collected. -/
def rainStep (rainEnv : String → ApiResult) (start_year end_year : ℤ)
    (acc : List Record × List String × List String) (sub : String) :
    List Record × List String × List String :=
  let res := rainEnv sub
  if res.success then
    (acc.1 ++ res.data.filterMap (rainKeep start_year end_year), acc.2.1 ++ [res.url], acc.2.2)
  else
    (acc.1, acc.2.1, acc.2.2 ++ [sub ++ ": " ++ res.error])

/-- The per-subdivision loop of `fetch_rainfall_data`, accumulating
(records, urls, error strings). -/
def rainFold (rainEnv : String → ApiResult) (start_year end_year : ℤ)
    (subs : List String) : List Record × List String × List String :=
  subs.foldl (rainStep rainEnv start_year end_year) ([], [], [])

/-- Embedding of `fetch_rainfall_data`: `rainEnv` gives the gateway
response per subdivision. -/
def fetch_rainfall_data (rainEnv : String → ApiResult) (subs : List String) (years : ℤ) :
    ApiResult :=
  let st := rainFold rainEnv (CURRENT_ANALYSIS_YEAR - years + 1) CURRENT_ANALYSIS_YEAR subs
  if st.1 = [] ∧ st.2.2 ≠ [] then
    { success := false, error := "Failed to fetch data: " ++ String.intercalate "; " st.2.2,
      data := [], total := 0, url := "" }
  else
    { success := decide (0 < st.1.length), data := st.1, total := st.1.length, error := "",
      url := if st.2.1 = [] then "" else String.intercalate " | " st.2.1 }

/-! ### Extremal lookup (`find_max_min_districts`, src/tools.py lines 277–344) -/

/-- Round-half-to-even to an integer (model of Python `round`). -/
def roundHalfEven (q : ℚ) : ℤ :=
  let n := qfloor q
  let r := qsub q (qofInt n)
  if qlt r (mkRat 1 2) then n
  else if qlt (mkRat 1 2) r then n + 1
  else if n % 2 = 0 then n else n + 1

/-- Model of Python `round(x, nd)`: exact-decimal round-half-to-even.
(CPython rounds on the binary representation of the float; the difference
is confined to representation ties no claim exercises.) -/
def pyRound (nd : ℕ) (q : ℚ) : ℚ :=
  qdiv (qofInt (roundHalfEven (qmul q (qofInt (10 ^ nd))))) (qofInt (10 ^ nd))

/-- Loop body of the `state_x` district aggregation: every record
contributes its sanitized production to its district's sum. -/
def xstep (d : List (Value × ℚ)) (r : Record) : List (Value × ℚ) :=
  dinsert d (rget r "district_name" (Value.str "Unknown"))
    (qadd (dget d (rget r "district_name" (Value.str "Unknown")) 0)
      (safe_float_convert (rget r "production_" (Value.num 0)) 0))

/-- Per-district production sums for `state_x` (zeros included). -/
def district_production_x (data : List Record) : List (Value × ℚ) :=
  data.foldl xstep []

/-- Loop body of the `state_y` district aggregation: a record contributes
only when its sanitized production is strictly positive
(`if production > 0:  # Exclude zero production`). -/
def ystep (d : List (Value × ℚ)) (r : Record) : List (Value × ℚ) :=
  if qlt 0 (safe_float_convert (rget r "production_" (Value.num 0)) 0) then
    dinsert d (rget r "district_name" (Value.str "Unknown"))
      (qadd (dget d (rget r "district_name" (Value.str "Unknown")) 0)
        (safe_float_convert (rget r "production_" (Value.num 0)) 0))
  else d

/-- Per-district production sums for `state_y` (zeros excluded). -/
def district_production_y (data : List Record) : List (Value × ℚ) :=
  data.foldl ystep []

/-- Python `max(items, key=lambda x: x[1])`: first item of maximal value. -/
def pyMaxBySnd {κ : Type} : List (κ × ℚ) → Option (κ × ℚ)
  | [] => Option.none
  | p :: rest => some (rest.foldl (fun best x => if qlt best.2 x.2 then x else best) p)

/-- Python `min(items, key=lambda x: x[1])`: first item of minimal value. -/
def pyMinBySnd {κ : Type} : List (κ × ℚ) → Option (κ × ℚ)
  | [] => Option.none
  | p :: rest => some (rest.foldl (fun best x => if qlt x.2 best.2 then x else best) p)

/-- The `production_ratio` field: `max/min` rounded to 2 decimals when the
minimum is strictly positive, else the literal string `"Infinite"`. -/
inductive RatioVal
  | num (q : ℚ)
  | label (s : String)
deriving DecidableEq

/-- The ratio computation of `find_max_min_districts` (line 335): the
division is evaluated only under the `min > 0` guard. -/
def production_ratio_of (maxTotal minTotal : ℚ) : RatioVal :=
  if qlt 0 minTotal then RatioVal.num (pyRound 2 (qdiv maxTotal minTotal))
  else RatioVal.label "Infinite"

/-- Result shape of `find_max_min_districts` (the per-state sub-dicts are
flattened into fields). -/
structure MaxMinOut where
  crop : String
  years_analyzed : ℤ
  max_production_district : Value
  max_total : ℚ
  max_source_url : String
  min_production_district : Value
  min_total : ℚ
  min_source_url : String
  production_ratio : RatioVal
  difference : ℚ
  citations : List (String × String)
deriving DecidableEq

/-- Embedding of `find_max_min_districts`: `gwX`/`gwY` are the gateway
responses for the two states' crop queries. -/
def find_max_min_districts (gwX gwY : ApiResult) (state_x state_y crop_z : String)
    (years : ℤ) : Except String MaxMinOut :=
  let crop_result_x := fetch_crop_data years gwX
  if crop_result_x.success = false then
    .error ("Failed to fetch " ++ crop_z ++ " data for " ++ state_x ++ ": " ++ crop_result_x.error)
  else
    match pyMaxBySnd (district_production_x crop_result_x.data) with
    | Option.none => .error ("No production data found for " ++ crop_z ++ " in " ++ state_x)
    | some maxX =>
      let crop_result_y := fetch_crop_data years gwY
      if crop_result_y.success = false then
        .error ("Failed to fetch " ++ crop_z ++ " data for " ++ state_y ++ ": " ++
          crop_result_y.error)
      else
        match pyMinBySnd (district_production_y crop_result_y.data) with
        | Option.none => .error ("No production data found for " ++ crop_z ++ " in " ++ state_y)
        | some minY =>
          .ok { crop := crop_z, years_analyzed := years,
                max_production_district := maxX.1, max_total := pyRound 2 maxX.2,
                max_source_url := crop_result_x.url,
                min_production_district := minY.1, min_total := pyRound 2 minY.2,
                min_source_url := crop_result_y.url,
                production_ratio := production_ratio_of maxX.2 minY.2,
                difference := pyRound 2 (qsub maxX.2 minY.2),
                citations := dinsert (dinsert [] state_x crop_result_x.url) state_y
                  crop_result_y.url }

/-! ### Dictionary and fold lemmas for the extremal lookup -/

theorem mem_dinsert {κ α : Type} [DecidableEq κ] {d : List (κ × α)} {k : κ} {v : α} {p : κ × α}
    (h : p ∈ dinsert d k v) : p ∈ d ∨ p = (k, v) := by
  induction d with
  | nil =>
    rw [dinsert] at h
    exact Or.inr (List.mem_singleton.mp h)
  | cons q rest ih =>
    rcases q with ⟨qk, qv⟩
    rw [dinsert] at h
    by_cases hqk : qk = k
    · rw [if_pos hqk] at h
      rcases List.mem_cons.mp h with h | h
      · exact Or.inr h
      · exact Or.inl (List.mem_cons_of_mem _ h)
    · rw [if_neg hqk] at h
      rcases List.mem_cons.mp h with h | h
      · exact Or.inl (h ▸ List.mem_cons_self _ _)
      · rcases ih h with h1 | h1
        · exact Or.inl (List.mem_cons_of_mem _ h1)
        · exact Or.inr h1

theorem dget_nonneg_of_pos {κ : Type} [DecidableEq κ] {d : List (κ × ℚ)}
    (h : ∀ p ∈ d, 0 < p.2) (k : κ) : 0 ≤ dget d k 0 := by
  rw [dget]
  rcases hf : d.find? (fun p => decide (p.1 = k)) with _ | p
  · rw [hf]
  · rw [hf]
    exact le_of_lt (h p (List.mem_of_find?_eq_some hf))

theorem ystep_preserves_pos {acc : List (Value × ℚ)} {r : Record}
    (hacc : ∀ p ∈ acc, 0 < p.2) : ∀ p ∈ ystep acc r, 0 < p.2 := by
  intro p hp
  rw [ystep] at hp
  by_cases hpos : qlt 0 (safe_float_convert (rget r "production_" (Value.num 0)) 0) = true
  · rw [if_pos hpos] at hp
    rcases mem_dinsert hp with h | h
    · exact hacc p h
    · have hprod : 0 < safe_float_convert (rget r "production_" (Value.num 0)) 0 :=
        (qlt_iff _ _).mp hpos
      have hget : 0 ≤ dget acc (rget r "district_name" (Value.str "Unknown")) 0 :=
        dget_nonneg_of_pos hacc _
      rw [h]
      show 0 < qadd _ _
      rw [qadd_eq]
      exact add_pos_of_nonneg_of_pos hget hprod
  · rw [if_neg hpos] at hp
    exact hacc p hp

theorem district_production_y_pos_aux (data : List Record) :
    ∀ acc : List (Value × ℚ), (∀ p ∈ acc, 0 < p.2) →
      ∀ p ∈ data.foldl ystep acc, 0 < p.2 := by
  induction data with
  | nil => intro acc hacc; exact hacc
  | cons r rest ih =>
    intro acc hacc
    rw [List.foldl_cons]
    exact ih _ (ystep_preserves_pos hacc)

/-- Every per-district sum in the `state_y` aggregation is strictly
positive: it is a sum of strictly positive contributions. -/
theorem district_production_y_pos (data : List Record) :
    ∀ p ∈ district_production_y data, 0 < p.2 :=
  district_production_y_pos_aux data [] (by intro p hp; cases hp)

theorem foldl_pick_mem {α : Type} (c : α → α → Bool) :
    ∀ (t : List α) (a : α),
      t.foldl (fun best x => if c x best then x else best) a = a ∨
        t.foldl (fun best x => if c x best then x else best) a ∈ t := by
  intro t
  induction t with
  | nil => intro a; exact Or.inl rfl
  | cons x xs ih =>
    intro a
    rw [List.foldl_cons]
    rcases ih (if c x a then x else a) with h | h
    · rw [h]
      by_cases hc : c x a = true
      · rw [if_pos hc]
        exact Or.inr (List.mem_cons_self _ _)
      · rw [if_neg hc]
        exact Or.inl rfl
    · exact Or.inr (List.mem_cons_of_mem _ h)

theorem pyMinBySnd_mem {κ : Type} {l : List (κ × ℚ)} {p : κ × ℚ}
    (h : pyMinBySnd l = some p) : p ∈ l := by
  rcases l with _ | ⟨q, rest⟩
  · exact Option.noConfusion h
  · rw [pyMinBySnd] at h
    injection h with h
    rcases foldl_pick_mem (fun x best => qlt x.2 best.2) rest q with h1 | h1
    · rw [← h]
      rw [h1]
      exact List.mem_cons_self _ _
    · rw [← h]
      exact List.mem_cons_of_mem _ h1

theorem pyMaxBySnd_mem {κ : Type} {l : List (κ × ℚ)} {p : κ × ℚ}
    (h : pyMaxBySnd l = some p) : p ∈ l := by
  rcases l with _ | ⟨q, rest⟩
  · exact Option.noConfusion h
  · rw [pyMaxBySnd] at h
    injection h with h
    rcases foldl_pick_mem (fun x best => qlt best.2 x.2) rest q with h1 | h1
    · rw [← h, h1]
      exact List.mem_cons_self _ _
    · rw [← h]
      exact List.mem_cons_of_mem _ h1

theorem dkeys_dinsert_self {κ α : Type} [DecidableEq κ] (d : List (κ × α)) (k : κ) (v : α) :
    k ∈ dkeys (dinsert d k v) := by
  induction d with
  | nil => simp [dinsert, dkeys]
  | cons q rest ih =>
    rcases q with ⟨qk, qv⟩
    rw [dinsert]
    by_cases h : qk = k
    · rw [if_pos h]
      simp [dkeys]
    · rw [if_neg h]
      simp only [dkeys, List.map_cons] at ih ⊢
      exact List.mem_cons_of_mem _ ih

theorem dkeys_dinsert_mono {κ α : Type} [DecidableEq κ] {d : List (κ × α)} {k0 : κ}
    (k : κ) (v : α) (h : k0 ∈ dkeys d) : k0 ∈ dkeys (dinsert d k v) := by
  induction d with
  | nil => cases h
  | cons q rest ih =>
    rcases q with ⟨qk, qv⟩
    rw [dinsert]
    by_cases hqk : qk = k
    · rw [if_pos hqk]
      simp only [dkeys, List.map_cons, List.mem_cons] at h ⊢
      rcases h with h | h
      · exact Or.inl (h.trans hqk)
      · exact Or.inr h
    · rw [if_neg hqk]
      simp only [dkeys, List.map_cons, List.mem_cons] at h ⊢
      rcases h with h | h
      · exact Or.inl h
      · exact Or.inr (ih h)

theorem xstep_key_mem (acc : List (Value × ℚ)) (r : Record) :
    rget r "district_name" (Value.str "Unknown") ∈ dkeys (xstep acc r) :=
  dkeys_dinsert_self _ _ _

theorem xfold_keeps_key (rest : List Record) :
    ∀ (acc : List (Value × ℚ)) (k : Value), k ∈ dkeys acc →
      k ∈ dkeys (rest.foldl xstep acc) := by
  induction rest with
  | nil => intro acc k h; exact h
  | cons r t ih =>
    intro acc k h
    rw [List.foldl_cons]
    exact ih _ _ (dkeys_dinsert_mono _ _ h)

theorem district_production_x_keys_aux (data : List Record) :
    ∀ acc : List (Value × ℚ), ∀ r ∈ data,
      rget r "district_name" (Value.str "Unknown") ∈ dkeys (data.foldl xstep acc) := by
  induction data with
  | nil => intro acc r hr; cases hr
  | cons s rest ih =>
    intro acc r hr
    rw [List.foldl_cons]
    rcases List.mem_cons.mp hr with h | h
    · subst h
      exact xfold_keeps_key rest _ _ (xstep_key_mem acc r)
    · exact ih _ r h

/-- Every record's district — including zero-production ones — appears
among the `state_x` per-district keys. -/
theorem district_production_x_keys (data : List Record) :
    ∀ r ∈ data, rget r "district_name" (Value.str "Unknown")
      ∈ dkeys (district_production_x data) :=
  district_production_x_keys_aux data []

theorem district_production_y_filter_aux (data : List Record) :
    ∀ acc : List (Value × ℚ),
      data.foldl ystep acc =
        (data.filter
          (fun r => qlt 0 (safe_float_convert (rget r "production_" (Value.num 0)) 0))).foldl
          ystep acc := by
  induction data with
  | nil => intro acc; rfl
  | cons r rest ih =>
    intro acc
    rw [List.foldl_cons, List.filter_cons]
    by_cases h : qlt 0 (safe_float_convert (rget r "production_" (Value.num 0)) 0) = true
    · rw [if_pos h, List.foldl_cons]
      exact ih _
    · rw [if_neg (by simpa using h)]
      have hskip : ystep acc r = acc := by
        rw [ystep, if_neg h]
      rw [hskip]
      exact ih _

/-- The `state_y` aggregation depends only on the records with strictly
positive sanitized production: all others contribute nothing. -/
theorem district_production_y_filter (data : List Record) :
    district_production_y data =
      district_production_y
        (data.filter
          (fun r => qlt 0 (safe_float_convert (rget r "production_" (Value.num 0)) 0))) :=
  district_production_y_filter_aux data []

/-- Inversion of a successful `find_max_min_districts` call. -/
theorem find_max_min_ok_inversion {gwX gwY : ApiResult} {state_x state_y crop_z : String}
    {years : ℤ} {res : MaxMinOut}
    (h : find_max_min_districts gwX gwY state_x state_y crop_z years = .ok res) :
    ∃ maxX minY,
      pyMaxBySnd (district_production_x (fetch_crop_data years gwX).data) = some maxX ∧
      pyMinBySnd (district_production_y (fetch_crop_data years gwY).data) = some minY ∧
      res.min_production_district = minY.1 ∧
      res.min_total = pyRound 2 minY.2 ∧
      res.max_production_district = maxX.1 ∧
      res.max_total = pyRound 2 maxX.2 ∧
      res.production_ratio = production_ratio_of maxX.2 minY.2 := by
  simp only [find_max_min_districts] at h
  split at h
  · exact Except.noConfusion h
  · split at h
    · exact Except.noConfusion h
    · next maxX hmax =>
      split at h
      · exact Except.noConfusion h
      · split at h
        · exact Except.noConfusion h
        · next minY hmin =>
          injection h with h
          subst h
          exact ⟨maxX, minY, hmax, hmin, rfl, rfl, rfl, rfl, rfl⟩

/-- C2: a `state_y` district with zero total production is never selected
as the minimum — only strictly positive sanitized productions contribute
to `state_y`'s per-district sums, so every candidate minimum is positive;
when no district qualifies, no successful result is possible (the call
errors); by contrast every `state_x` record's district, zero-production
ones included, appears among `state_x`'s aggregated districts. -/
theorem find_max_min_districts_zero_exclusion (gwX gwY : ApiResult)
    (state_x state_y crop_z : String) (years : ℤ) :
    (∀ res, find_max_min_districts gwX gwY state_x state_y crop_z years = .ok res →
      ∃ p, pyMinBySnd (district_production_y (fetch_crop_data years gwY).data) = some p ∧
        0 < p.2 ∧ res.min_production_district = p.1) ∧
    (district_production_y (fetch_crop_data years gwY).data = [] →
      ∀ res, find_max_min_districts gwX gwY state_x state_y crop_z years ≠ .ok res) ∧
    (district_production_y (fetch_crop_data years gwY).data =
      district_production_y ((fetch_crop_data years gwY).data.filter
        (fun r => qlt 0 (safe_float_convert (rget r "production_" (Value.num 0)) 0)))) ∧
    (∀ r ∈ (fetch_crop_data years gwX).data,
      rget r "district_name" (Value.str "Unknown")
        ∈ dkeys (district_production_x (fetch_crop_data years gwX).data)) := by
  refine ⟨?_, ?_, district_production_y_filter _, district_production_x_keys _⟩
  · intro res h
    obtain ⟨maxX, minY, hmax, hmin, hdist, -⟩ := find_max_min_ok_inversion h
    exact ⟨minY, hmin, district_production_y_pos _ minY (pyMinBySnd_mem hmin), hdist⟩
  · intro hempty res h
    obtain ⟨maxX, minY, hmax, hmin, -⟩ := find_max_min_ok_inversion h
    rw [hempty] at hmin
    exact Option.noConfusion hmin

/-- C3: the ratio computation divides only under the `min > 0` guard —
when the minimum total is exactly 0 the ratio field is the literal
`"Infinite"` sentinel — and on every successful call the minimum is
strictly positive (a sum of strictly positive contributions), so the
ratio is a number and the sentinel branch is unreachable. -/
theorem find_max_min_districts_ratio_sentinel (gwX gwY : ApiResult)
    (state_x state_y crop_z : String) (years : ℤ) :
    (∀ mx : ℚ, production_ratio_of mx 0 = RatioVal.label "Infinite") ∧
    (∀ res, find_max_min_districts gwX gwY state_x state_y crop_z years = .ok res →
      ∃ mx mn, 0 < mn ∧ res.production_ratio = RatioVal.num (pyRound 2 (qdiv mx mn)) ∧
        res.production_ratio ≠ RatioVal.label "Infinite") := by
  constructor
  · intro mx
    rw [production_ratio_of, if_neg (by decide)]
  · intro res h
    obtain ⟨maxX, minY, hmax, hmin, -, -, -, -, hratio⟩ := find_max_min_ok_inversion h
    have hpos : 0 < minY.2 := district_production_y_pos _ minY (pyMinBySnd_mem hmin)
    have hq : res.production_ratio = RatioVal.num (pyRound 2 (qdiv maxX.2 minY.2)) := by
      rw [hratio, production_ratio_of, if_pos ((qlt_iff _ _).mpr hpos)]
    exact ⟨maxX.2, minY.2, hpos, hq, by rw [hq]; exact fun hx => RatioVal.noConfusion hx⟩

/-! ### Concrete gateway responses used by the extremal-lookup witnesses -/

/-- Witness record: district `D1`, year 2008, production 100. -/
def wrecX1 : Record :=
  [("district_name", Value.str "D1"), ("crop_year", Value.num 2008), ("production_", Value.num 100)]

/-- Witness record: district `E1`, year 2008, production 0. -/
def wrecY1 : Record :=
  [("district_name", Value.str "E1"), ("crop_year", Value.num 2008), ("production_", Value.num 0)]

/-- Witness record: district `E2`, year 2008, production 4. -/
def wrecY2 : Record :=
  [("district_name", Value.str "E2"), ("crop_year", Value.num 2008), ("production_", Value.num 4)]

/-- Witness gateway response for `state_x`. -/
def wgwX : ApiResult := { success := true, data := [wrecX1], total := 1, error := "", url := "ux" }

/-- Witness gateway response for `state_y` (one zero district, one positive). -/
def wgwY : ApiResult := { success := true, data := [wrecY1, wrecY2], total := 2, error := "", url := "uy" }

/-- Witness gateway response for `state_y` with only zero production. -/
def wgwY0 : ApiResult := { success := true, data := [wrecY1], total := 1, error := "", url := "uy" }

/-- A placeholder result value used to instantiate negated conclusions. -/
def mmDummy : MaxMinOut :=
  { crop := "", years_analyzed := 0, max_production_district := Value.str "",
    max_total := 0, max_source_url := "", min_production_district := Value.str "",
    min_total := 0, min_source_url := "", production_ratio := RatioVal.label "",
    difference := 0, citations := [] }

/-- The concrete result of the witness call (extracted by evaluation). -/
def mmRes : MaxMinOut :=
  match find_max_min_districts wgwX wgwY "MH" "KA" "Rice" 5 with
  | .ok r => r
  | .error _ => mmDummy

/-- Witness for the zero-exclusion theorem at concrete inputs: the
selected minimum is `E2` with positive total 4 (the zero district `E1`
is not selected); an all-zero `state_y` yields no successful result; and
`D1` appears among `state_x`'s aggregated districts. -/
theorem find_max_min_districts_zero_exclusion_witness :
    (∃ p, pyMinBySnd (district_production_y (fetch_crop_data 5 wgwY).data) = some p ∧
      0 < p.2 ∧ mmRes.min_production_district = p.1) ∧
    find_max_min_districts wgwX wgwY0 "MH" "KA" "Rice" 5 ≠ .ok mmDummy ∧
    rget (cleanCropRecord wrecX1) "district_name" (Value.str "Unknown")
      ∈ dkeys (district_production_x (fetch_crop_data 5 wgwX).data) := by
  refine ⟨?_, ?_, ?_⟩
  · exact (find_max_min_districts_zero_exclusion wgwX wgwY "MH" "KA" "Rice" 5).1 mmRes rfl
  · exact (find_max_min_districts_zero_exclusion wgwX wgwY0 "MH" "KA" "Rice" 5).2.1 rfl mmDummy
  · exact (find_max_min_districts_zero_exclusion wgwX wgwY "MH" "KA" "Rice" 5).2.2.2
      (cleanCropRecord wrecX1) (by rw [show (fetch_crop_data 5 wgwX).data = [cleanCropRecord wrecX1] from rfl]; exact List.mem_singleton.mpr rfl)

/-- Witness for the ratio-sentinel theorem: the sentinel on a zero
minimum, and the concrete successful call's numeric ratio (100/4 = 25). -/
theorem find_max_min_districts_ratio_sentinel_witness :
    production_ratio_of 7 0 = RatioVal.label "Infinite" ∧
    (∃ mx mn, 0 < mn ∧ mmRes.production_ratio = RatioVal.num (pyRound 2 (qdiv mx mn)) ∧
      mmRes.production_ratio ≠ RatioVal.label "Infinite") := by
  constructor
  · exact (find_max_min_districts_ratio_sentinel wgwX wgwY "MH" "KA" "Rice" 5).1 7
  · exact (find_max_min_districts_ratio_sentinel wgwX wgwY "MH" "KA" "Rice" 5).2 mmRes rfl

/-! ### Configuration tables (src/config.py) -/

/-- `config.IMD_SUBDIVISION_MAP`. -/
def IMD_SUBDIVISION_MAP : List (String × List String) := [
  ("Andhra Pradesh", ["Coastal Andhra Pradesh", "Rayalaseema"]),
  ("Arunachal Pradesh", ["Arunachal Pradesh"]),
  ("Assam", ["Assam & Meghalaya"]),
  ("Bihar", ["Bihar"]),
  ("Chhattisgarh", ["Chhattisgarh"]),
  ("Delhi", ["Haryana Chandigarh & Delhi"]),
  ("Goa", ["Konkan and Goa"]),
  ("Gujarat", ["Gujarat Region", "Saurashtra and Kutch"]),
  ("Haryana", ["Haryana Chandigarh & Delhi"]),
  ("Himachal Pradesh", ["Himachal Pradesh"]),
  ("Jammu and Kashmir", ["Jammu & Kashmir"]),
  ("Jharkhand", ["Jharkhand"]),
  ("Karnataka", ["Coastal Karnataka", "North Interior Karnataka", "South Interior Karnataka"]),
  ("Kerala", ["Kerala"]),
  ("Madhya Pradesh", ["East Madhya Pradesh", "West Madhya Pradesh"]),
  ("Maharashtra", ["Konkan and Goa", "Madhya Maharashtra", "Marathwada", "Vidarbha"]),
  ("Manipur", ["Sub Himalayan West Bengal & Sikkim"]),
  ("Meghalaya", ["Assam & Meghalaya"]),
  ("Mizoram", ["Sub Himalayan West Bengal & Sikkim"]),
  ("Nagaland", ["Nagaland Manipur Mizoram & Tripura"]),
  ("Odisha", ["Odisha"]),
  ("Punjab", ["Punjab"]),
  ("Rajasthan", ["East Rajasthan", "West Rajasthan"]),
  ("Sikkim", ["Sub Himalayan West Bengal & Sikkim"]),
  ("Tamil Nadu", ["Tamil Nadu"]),
  ("Telangana", ["Telangana"]),
  ("Tripura", ["Nagaland Manipur Mizoram & Tripura"]),
  ("Uttar Pradesh", ["East Uttar Pradesh", "West Uttar Pradesh"]),
  ("Uttarakhand", ["Uttarakhand"]),
  ("West Bengal", ["Gangetic West Bengal", "Sub Himalayan West Bengal & Sikkim"])]

/-- `config.get_subdivisions_for_state`. -/
def get_subdivisions_for_state (state_name : String) : List String :=
  dget IMD_SUBDIVISION_MAP state_name []

/-- `config.CROP_TYPES`. -/
def CROP_TYPES : List (String × List String) := [
  ("Cereals", ["Rice", "Wheat", "Maize", "Jowar", "Bajra", "Ragi", "Small millets", "Barley"]),
  ("Pulses", ["Gram", "Tur", "Urad", "Moong", "Masoor", "Lentil", "Other Kharif pulses",
    "Other Rabi pulses", "Peas & beans", "Arhar/Tur", "Moth", "Horse-gram"]),
  ("Oilseeds", ["Groundnut", "Sesamum", "Rapeseed & Mustard", "Linseed", "Castor seed",
    "Safflower", "Sunflower", "Soyabean", "Niger seed", "Coconut"]),
  ("Cash Crops", ["Sugarcane", "Cotton", "Jute", "Mesta", "Tea", "Coffee", "Rubber", "Tobacco"]),
  ("Spices", ["Black pepper", "Dry chillies", "Turmeric", "Ginger", "Coriander", "Garlic"]),
  ("Fruits", ["Banana", "Mango", "Orange", "Apple", "Grapes"]),
  ("Vegetables", ["Potato", "Onion", "Tomato", "Cabbage", "Cauliflower"])]

/-- `config.CROP_ATTRIBUTES`, restricted to the water-use tier (the only
attribute the analytics read). -/
def CROP_ATTRIBUTES_WATER : List (String × String) := [
  ("Rice", "High"), ("Sugarcane", "High"), ("Banana", "High"),
  ("Wheat", "Moderate"), ("Maize", "Moderate"), ("Cotton", "Moderate"), ("Groundnut", "Moderate"),
  ("Bajra", "Low"), ("Jowar", "Low"), ("Ragi", "Low"), ("Gram", "Low"), ("Tur", "Low"),
  ("Moong", "Low"), ("Urad", "Low"), ("Arhar/Tur", "Low")]

/-! ### Comparison analysis (`compare_rainfall_and_crops`, src/tools.py lines 185–274) -/

/-- Outcome of an embedded analysis routine: a normal result, a returned
`{"error": ...}` dictionary, or an uncaught Python exception. -/
inductive PyOutcome (α : Type)
  | ok (a : α)
  | errDict (msg : String)
  | raised (e : PyErr)

/-- An upstream fetch performed by an analysis routine (used to reason
about what network activity precedes an error return). -/
inductive CallEvent
  | rain (subdivision : String)
  | crop (state : String)
deriving DecidableEq

/-- Per-state rainfall summary of the comparison result. -/
structure RainEntry where
  average_annual_rainfall_mm : ℚ
  data_points : ℕ
  subdivisions : List String
  source_url : String
deriving DecidableEq

/-- Per-state crop summary of the comparison result. -/
structure CropEntry where
  top_3_crops : List (Value × ℚ)
  source_url : String
deriving DecidableEq

/-- Result shape of `compare_rainfall_and_crops`. -/
structure CompareResult where
  states : List String
  years_analyzed : ℤ
  crop_type : String
  rainfall_comparison : List (String × RainEntry)
  crop_comparison : List (String × CropEntry)
  citations : List (String × String)
deriving DecidableEq

/-- Sum of a list of rationals. -/
def qsum (l : List ℚ) : ℚ := l.foldl qadd 0

/-- Model of `np.mean` (callers guard against empty input). -/
def npMean (l : List ℚ) : ℚ := qdiv (qsum l) (qofInt l.length)

/-- Python `sorted(items, key=lambda x: x[1], reverse=True)`: stable
descending sort by second component. -/
def sortDescBySnd {κ : Type} (l : List (κ × ℚ)) : List (κ × ℚ) :=
  l.mergeSort (fun a b => qle b.2 a.2)

/-- The rainfall loop of the comparison, one state at a time, threading
the per-state dictionary and logging every subdivision fetch. -/
def rainPhase (rainEnv : String → ApiResult) (years : ℤ) :
    List String → List (String × RainEntry) →
      PyOutcome (List (String × RainEntry)) × List CallEvent
  | [], acc => (.ok acc, [])
  | state :: rest, acc =>
    match get_subdivisions_for_state state with
    | [] => (.errDict ("No IMD subdivision mapping found for " ++ state ++
        ". Please update config.py with correct subdivision names."), [])
    | s :: ss =>
      let logs := (s :: ss).map CallEvent.rain
      let rr := fetch_rainfall_data rainEnv (s :: ss) years
      if rr.success = false then
        (.errDict ("Failed to fetch rainfall data for " ++ state ++ ": " ++ rr.error), logs)
      else
        let annual_rainfalls :=
          (rr.data.map (fun r => safe_float_convert (rget r "annual" Value.none) 0)).filter
            (fun a => qlt 0 a)
        if annual_rainfalls = [] then
          (.errDict ("No valid rainfall data found for " ++ state ++
            " in the specified period"), logs)
        else
          let entry : RainEntry :=
            { average_annual_rainfall_mm := pyRound 2 (npMean annual_rainfalls),
              data_points := annual_rainfalls.length,
              subdivisions := s :: ss,
              source_url := rr.url }
          match rainPhase rainEnv years rest (dinsert acc state entry) with
          | (out, logTail) => (out, logs ++ logTail)

/-- Python `'` (used when rendering a list of strings). -/
def pyQuote : String := String.mk [Char.ofNat 39]

/-- Python `str(list_of_strings)`. -/
def pyListRepr (l : List String) : String :=
  "[" ++ String.intercalate ", " (l.map (fun s => pyQuote ++ s ++ pyQuote)) ++ "]"

/-- Model of Python `value.lower()`: raises on non-strings (CPython
raises `AttributeError`; modelled as a `typeError`, indistinguishable
here since no `except` clause separates the two). -/
def pyLowerVal : Value → Except PyErr (List Char)
  | .str s => .ok (pylower s.data)
  | .none => .error (.typeError "NoneType object has no attribute lower")
  | .num _ => .error (.typeError "float object has no attribute lower")

/-- Needle-at-head test for the substring check. -/
def strStarts : List Char → List Char → Bool
  | [], _ => true
  | _ :: _, [] => false
  | c :: cs, d :: ds => c = d && strStarts cs ds

/-- Model of Python `needle in hay` on strings. -/
def strHas (needle : List Char) : List Char → Bool
  | [] => strStarts needle []
  | d :: ds => strStarts needle (d :: ds) || strHas needle ds

/-- Model of `any(crop.lower() in r.get("crop", "").lower() for crop in
crops_of_type)` — the record access can raise on a non-string crop field
(only when the generator is nonempty). -/
def cropMatches (crops_of_type : List String) (r : Record) : Except PyErr Bool :=
  match crops_of_type with
  | [] => .ok false
  | _ :: _ => do
    let rl ← pyLowerVal (rget r "crop" (Value.str ""))
    pure (crops_of_type.any (fun c => strHas (pylower c.data) rl))

/-- Exception-propagating filter (Python list comprehension). -/
def filterExc {α : Type} (p : α → Except PyErr Bool) : List α → Except PyErr (List α)
  | [] => .ok []
  | a :: as => do
    let b ← p a
    let rest ← filterExc p as
    pure (if b then a :: rest else rest)

/-- Loop body of the per-crop production aggregation. -/
def cstep (d : List (Value × ℚ)) (r : Record) : List (Value × ℚ) :=
  dinsert d (rget r "crop" (Value.str "Unknown"))
    (qadd (dget d (rget r "crop" (Value.str "Unknown")) 0)
      (safe_float_convert (rget r "production_" (Value.num 0)) 0))

/-- The crop loop of the comparison, one state at a time. -/
def cropPhase (cropEnv : String → ApiResult) (crop_type : String) (years : ℤ) :
    List String → List (String × CropEntry) →
      PyOutcome (List (String × CropEntry)) × List CallEvent
  | [], acc => (.ok acc, [])
  | state :: rest, acc =>
    let cr := fetch_crop_data years (cropEnv state)
    let logs := [CallEvent.crop state]
    if cr.success = false then
      (.errDict ("Failed to fetch crop data for " ++ state ++ ": " ++ cr.error), logs)
    else
      match dget CROP_TYPES crop_type [] with
      | [] => (.errDict ("Unknown crop type: " ++ crop_type ++ ". Valid types: " ++
          pyListRepr (dkeys CROP_TYPES)), logs)
      | c :: cs =>
        match filterExc (cropMatches (c :: cs)) cr.data with
        | .error e => (.raised e, logs)
        | .ok filtered =>
          let crop_production := filtered.foldl cstep []
          let top := (sortDescBySnd crop_production).take 3
          let entry : CropEntry :=
            { top_3_crops := top.map (fun p => (p.1, pyRound 2 p.2)), source_url := cr.url }
          match cropPhase cropEnv crop_type years rest (dinsert acc state entry) with
          | (out, logTail) => (out, logs ++ logTail)

/-- The default entries Python would `KeyError` on (never hit: the
success path inserts an entry for every state before the lookup). -/
def rainEntryDflt : RainEntry :=
  { average_annual_rainfall_mm := 0, data_points := 0, subdivisions := [], source_url := "" }

/-- As `rainEntryDflt`, for crop entries. -/
def cropEntryDflt : CropEntry := { top_3_crops := [], source_url := "" }

/-- Embedding of `compare_rainfall_and_crops`: `rainEnv` gives the
gateway response per subdivision, `cropEnv` per state.  The second
component is the list of upstream fetches performed. -/
def compare_rainfall_and_crops (rainEnv : String → ApiResult) (cropEnv : String → ApiResult)
    (state_x state_y : String) (years : ℤ) (crop_type : String) :
    PyOutcome CompareResult × List CallEvent :=
  match rainPhase rainEnv years [state_x, state_y] [] with
  | (.errDict e, lg) => (.errDict e, lg)
  | (.raised e, lg) => (.raised e, lg)
  | (.ok rainfall_data, lg1) =>
    match cropPhase cropEnv crop_type years [state_x, state_y] [] with
    | (.errDict e, lg2) => (.errDict e, lg1 ++ lg2)
    | (.raised e, lg2) => (.raised e, lg1 ++ lg2)
    | (.ok crop_data, lg2) =>
      let cit1 := dinsert (dinsert [] (state_x ++ "_rainfall")
        (dget rainfall_data state_x rainEntryDflt).source_url) (state_y ++ "_rainfall")
        (dget rainfall_data state_y rainEntryDflt).source_url
      let citations := dinsert (dinsert cit1 (state_x ++ "_crops")
        (dget crop_data state_x cropEntryDflt).source_url) (state_y ++ "_crops")
        (dget crop_data state_y cropEntryDflt).source_url
      (.ok { states := [state_x, state_y], years_analyzed := years, crop_type := crop_type,
             rainfall_comparison := rainfall_data, crop_comparison := crop_data,
             citations := citations }, lg1 ++ lg2)

/-! ### Rounding and sorting lemmas -/

theorem roundHalfEven_cases (q : ℚ) :
    roundHalfEven q = ⌊q⌋ ∨ roundHalfEven q = ⌊q⌋ + 1 := by
  simp only [roundHalfEven, qfloor_eq]
  split_ifs <;> simp

theorem roundHalfEven_eq_ite (q : ℚ) : roundHalfEven q =
    if q - ⌊q⌋ < 1 / 2 then ⌊q⌋
    else if 1 / 2 < q - ⌊q⌋ then ⌊q⌋ + 1
    else if ⌊q⌋ % 2 = 0 then ⌊q⌋ else ⌊q⌋ + 1 := by
  have h2 : (mkRat 1 2 : ℚ) = 1 / 2 := by
    rw [Rat.mkRat_eq_divInt, Rat.divInt_eq_div]
    norm_num
  simp only [roundHalfEven, qfloor_eq, qsub_eq, qofInt_eq, h2]
  by_cases hc1 : q - (⌊q⌋ : ℚ) < 1 / 2
  · rw [if_pos ((qlt_iff _ _).mpr hc1), if_pos hc1]
  · rw [if_neg (fun hb => hc1 ((qlt_iff _ _).mp hb)), if_neg hc1]
    by_cases hc2 : (1 : ℚ) / 2 < q - ⌊q⌋
    · rw [if_pos ((qlt_iff _ _).mpr hc2), if_pos hc2]
    · rw [if_neg (fun hb => hc2 ((qlt_iff _ _).mp hb)), if_neg hc2]

theorem roundHalfEven_mono {p q : ℚ} (h : p ≤ q) :
    roundHalfEven p ≤ roundHalfEven q := by
  rcases lt_or_ge ⌊p⌋ ⌊q⌋ with hf | hf
  · rcases roundHalfEven_cases p with hp | hp <;>
      rcases roundHalfEven_cases q with hq | hq <;> omega
  · have hf2 : ⌊p⌋ ≤ ⌊q⌋ := Int.floor_le_floor h
    have hfe : ⌊q⌋ = ⌊p⌋ := le_antisymm hf hf2
    rw [roundHalfEven_eq_ite p, roundHalfEven_eq_ite q, hfe]
    have hr : p - (⌊p⌋ : ℚ) ≤ q - (⌊p⌋ : ℚ) := by linarith
    split_ifs <;> first | omega | (exfalso; linarith)

theorem pyRound_mono (nd : ℕ) {p q : ℚ} (h : p ≤ q) : pyRound nd p ≤ pyRound nd q := by
  simp only [pyRound, qdiv_eq, qmul_eq, qofInt_eq]
  have hpow : (0 : ℚ) < (((10 : ℤ) ^ nd : ℤ) : ℚ) := by
    push_cast
    positivity
  apply (div_le_div_iff_of_pos_right hpow).mpr
  exact Int.cast_le.mpr (roundHalfEven_mono (mul_le_mul_of_nonneg_right h (le_of_lt hpow)))

theorem sortDescBySnd_sorted {κ : Type} (l : List (κ × ℚ)) :
    List.Pairwise (fun a b : κ × ℚ => b.2 ≤ a.2) (sortDescBySnd l) := by
  have htrans : ∀ a b c : κ × ℚ, qle b.2 a.2 = true → qle c.2 b.2 = true →
      qle c.2 a.2 = true := by
    intro a b c hab hbc
    exact (qle_iff _ _).mpr (le_trans ((qle_iff _ _).mp hbc) ((qle_iff _ _).mp hab))
  have htotal : ∀ a b : κ × ℚ, (qle b.2 a.2 || qle a.2 b.2) = true := by
    intro a b
    rcases le_total b.2 a.2 with h | h
    · rw [Bool.or_eq_true]
      exact Or.inl ((qle_iff _ _).mpr h)
    · rw [Bool.or_eq_true]
      exact Or.inr ((qle_iff _ _).mpr h)
  have hs := List.sorted_mergeSort htrans htotal l
  rw [sortDescBySnd]
  exact hs.imp (fun hab => (qle_iff _ _).mp hab)

/-! ### String-key and dictionary lemmas for the citations map -/

theorem str_append_right_cancel {x y s : String} (h : x ++ s = y ++ s) : x = y := by
  have hd : x.data ++ s.data = y.data ++ s.data := by
    rw [← String.data_append, ← String.data_append, h]
  exact String.ext (List.append_cancel_right hd)

theorem append_tail6_ne {a b s t : List Char}
    (hs : 6 ≤ s.length) (ht : 6 ≤ t.length)
    (hne : s.reverse.take 6 ≠ t.reverse.take 6) : a ++ s ≠ b ++ t := by
  intro h
  have h' : s.reverse ++ a.reverse = t.reverse ++ b.reverse := by
    rw [← List.reverse_append, ← List.reverse_append, h]
  have h6 : (s.reverse ++ a.reverse).take 6 = (t.reverse ++ b.reverse).take 6 := by rw [h']
  rw [List.take_append_of_le_length (by simpa using hs),
    List.take_append_of_le_length (by simpa using ht)] at h6
  exact hne h6

theorem rainfall_crops_key_ne (x z : String) : x ++ "_rainfall" ≠ z ++ "_crops" := by
  intro h
  have hd : x.data ++ "_rainfall".data = z.data ++ "_crops".data := by
    rw [← String.data_append, ← String.data_append, h]
  exact append_tail6_ne (by decide) (by decide) (by decide) hd

theorem dinsert_of_not_mem {κ α : Type} [DecidableEq κ] {d : List (κ × α)} {k : κ} (v : α)
    (h : k ∉ dkeys d) : dinsert d k v = d ++ [(k, v)] := by
  induction d with
  | nil => rfl
  | cons q rest ih =>
    rcases q with ⟨qk, qv⟩
    rw [dinsert]
    have hqk : ¬qk = k := by
      intro he
      exact h (by simp [dkeys, he])
    rw [if_neg hqk, List.cons_append]
    have htail : k ∉ dkeys rest := by
      intro he
      exact h (by simp [dkeys] at he ⊢; exact Or.inr he)
    rw [ih htail]

/-- A crop-comparison entry's shape: the top-3 list is the first three of
a descending stable sort of some per-crop production dictionary, with
totals rounded to two decimals. -/
def entryProp (e : CropEntry) : Prop :=
  ∃ d : List (Value × ℚ),
    e.top_3_crops = ((sortDescBySnd d).take 3).map (fun p => (p.1, pyRound 2 p.2))

theorem entryProp_top3 {e : CropEntry} (h : entryProp e) :
    e.top_3_crops.length ≤ 3 ∧
      List.Pairwise (fun a b : Value × ℚ => b.2 ≤ a.2) e.top_3_crops := by
  obtain ⟨d, hd⟩ := h
  constructor
  · rw [hd, List.length_map]
    exact (List.length_take_le _ _).trans (by omega)
  · rw [hd]
    apply List.pairwise_map.mpr
    have hsorted := (sortDescBySnd_sorted d).sublist (List.take_sublist 3 _)
    exact hsorted.imp (fun hab => pyRound_mono 2 hab)

theorem cropPhase_entries (cropEnv : String → ApiResult) (crop_type : String) (years : ℤ) :
    ∀ (states : List String) (acc out : List (String × CropEntry)) (lg : List CallEvent),
      cropPhase cropEnv crop_type years states acc = (.ok out, lg) →
      (∀ p ∈ acc, entryProp p.2) → ∀ p ∈ out, entryProp p.2 := by
  intro states
  induction states with
  | nil =>
    intro acc out lg h hacc p hp
    rw [cropPhase] at h
    injection h with h1 h2
    injection h1 with h1
    subst h1
    exact hacc p hp
  | cons state rest ih =>
    intro acc out lg h hacc
    simp only [cropPhase] at h
    split at h
    · injection h with h1 h2
      exact absurd h1 (fun hx => PyOutcome.noConfusion hx)
    · split at h
      · injection h with h1 h2
        exact absurd h1 (fun hx => PyOutcome.noConfusion hx)
      · next c cs hct =>
        split at h
        · injection h with h1 h2
          exact absurd h1 (fun hx => PyOutcome.noConfusion hx)
        · next filtered hfil =>
          rcases hrec : cropPhase cropEnv crop_type years rest
              (dinsert acc state
                { top_3_crops :=
                    ((sortDescBySnd (filtered.foldl cstep [])).take 3).map
                      (fun p => (p.1, pyRound 2 p.2)),
                  source_url := (fetch_crop_data years (cropEnv state)).url }) with ⟨o, lgt⟩
          rw [hrec] at h
          injection h with h1 h2
          subst h1
          intro p hp
          refine ih _ out lgt hrec ?_ p hp
          intro q hq
          rcases mem_dinsert hq with hq1 | hq1
          · exact hacc q hq1
          · rw [hq1]
            exact ⟨filtered.foldl cstep [], rfl⟩

theorem citations_shape (xr yr xc yc u1 u2 u3 u4 : String)
    (h12 : xr ≠ yr) (h13 : xr ≠ xc) (h14 : xr ≠ yc) (h23 : yr ≠ xc) (h24 : yr ≠ yc)
    (h34 : xc ≠ yc) :
    dinsert (dinsert (dinsert (dinsert ([] : List (String × String)) xr u1) yr u2) xc u3) yc u4
      = [(xr, u1), (yr, u2), (xc, u3), (yc, u4)] := by
  have e1 : dinsert ([] : List (String × String)) xr u1 = [(xr, u1)] := rfl
  rw [e1]
  rw [dinsert_of_not_mem u2 (by
    show yr ∉ [xr]
    intro hmem
    rcases List.mem_singleton.mp hmem with h
    exact h12 h.symm)]
  rw [dinsert_of_not_mem u3 (by
    show xc ∉ [xr, yr]
    intro hmem
    rcases List.mem_cons.mp hmem with h | hmem2
    · exact h13 h.symm
    · rcases List.mem_singleton.mp hmem2 with h
      exact h23 h.symm)]
  rw [dinsert_of_not_mem u4 (by
    show yc ∉ [xr, yr, xc]
    intro hmem
    rcases List.mem_cons.mp hmem with h | hmem2
    · exact h14 h.symm
    · rcases List.mem_cons.mp hmem2 with h | hmem3
      · exact h24 h.symm
      · rcases List.mem_singleton.mp hmem3 with h
        exact h34 h.symm)]
  simp

theorem compare_ok_inversion {rainEnv cropEnv : String → ApiResult}
    {state_x state_y : String} {years : ℤ} {crop_type : String} {res : CompareResult}
    {lg : List CallEvent}
    (h : compare_rainfall_and_crops rainEnv cropEnv state_x state_y years crop_type
      = (.ok res, lg)) :
    ∃ rain lg1 crop lg2,
      rainPhase rainEnv years [state_x, state_y] [] = (.ok rain, lg1) ∧
      cropPhase cropEnv crop_type years [state_x, state_y] [] = (.ok crop, lg2) ∧
      res.crop_comparison = crop ∧
      res.citations =
        dinsert (dinsert (dinsert (dinsert [] (state_x ++ "_rainfall")
          (dget rain state_x rainEntryDflt).source_url) (state_y ++ "_rainfall")
          (dget rain state_y rainEntryDflt).source_url) (state_x ++ "_crops")
          (dget crop state_x cropEntryDflt).source_url) (state_y ++ "_crops")
          (dget crop state_y cropEntryDflt).source_url := by
  simp only [compare_rainfall_and_crops] at h
  split at h
  · injection h with h1 h2
    exact absurd h1 (fun hx => PyOutcome.noConfusion hx)
  · injection h with h1 h2
    exact absurd h1 (fun hx => PyOutcome.noConfusion hx)
  · next rain lg1 hrain =>
    split at h
    · injection h with h1 h2
      exact absurd h1 (fun hx => PyOutcome.noConfusion hx)
    · injection h with h1 h2
      exact absurd h1 (fun hx => PyOutcome.noConfusion hx)
    · next crop lg2 hcrop =>
      injection h with h1 h2
      injection h1 with h1
      subst h1
      exact ⟨rain, lg1, crop, lg2, hrain, hcrop, rfl, rfl⟩

/-- C7: on every successful comparison of two distinct states, each
state's top-crops list has at most 3 entries and is sorted in descending
order of summed (rounded) production, and the citations map is the
non-empty four-entry map with exactly one rainfall and one crop citation
per state. -/
theorem compare_rainfall_and_crops_result_shape
    (rainEnv cropEnv : String → ApiResult) (state_x state_y : String) (years : ℤ)
    (crop_type : String) (res : CompareResult) (lg : List CallEvent)
    (hok : compare_rainfall_and_crops rainEnv cropEnv state_x state_y years crop_type
      = (.ok res, lg))
    (hxy : state_x ≠ state_y) :
    (∀ p ∈ res.crop_comparison, p.2.top_3_crops.length ≤ 3 ∧
      List.Pairwise (fun a b : Value × ℚ => b.2 ≤ a.2) p.2.top_3_crops) ∧
    dkeys res.citations = [state_x ++ "_rainfall", state_y ++ "_rainfall",
      state_x ++ "_crops", state_y ++ "_crops"] ∧
    (dkeys res.citations).Nodup ∧
    res.citations ≠ [] := by
  obtain ⟨rain, lg1, crop, lg2, hrain, hcrop, hcc, hcit⟩ := compare_ok_inversion hok
  have k1 : state_x ++ "_rainfall" ≠ state_y ++ "_rainfall" :=
    fun he => hxy (str_append_right_cancel he)
  have k2 : state_x ++ "_crops" ≠ state_y ++ "_crops" :=
    fun he => hxy (str_append_right_cancel he)
  have hshape := citations_shape (state_x ++ "_rainfall") (state_y ++ "_rainfall")
    (state_x ++ "_crops") (state_y ++ "_crops")
    (dget rain state_x rainEntryDflt).source_url (dget rain state_y rainEntryDflt).source_url
    (dget crop state_x cropEntryDflt).source_url (dget crop state_y cropEntryDflt).source_url
    k1 (rainfall_crops_key_ne _ _) (rainfall_crops_key_ne _ _) (rainfall_crops_key_ne _ _)
    (rainfall_crops_key_ne _ _) k2
  refine ⟨?_, ?_, ?_, ?_⟩
  · intro p hp
    exact entryProp_top3 (cropPhase_entries cropEnv crop_type years _ [] crop lg2 hcrop
      (by intro q hq; cases hq) p (hcc ▸ hp))
  · rw [hcit, hshape]
    rfl
  · rw [hcit, hshape]
    show List.Nodup [state_x ++ "_rainfall", state_y ++ "_rainfall", state_x ++ "_crops",
      state_y ++ "_crops"]
    refine List.Pairwise.cons ?_ (List.Pairwise.cons ?_ (List.Pairwise.cons ?_ (by simp)))
    · intro a ha
      rcases List.mem_cons.mp ha with h | ha2
      · exact fun he => k1 (he.trans h)
      · rcases List.mem_cons.mp ha2 with h | ha3
        · exact h ▸ rainfall_crops_key_ne state_x state_x
        · rcases List.mem_singleton.mp ha3 with h
          exact h ▸ rainfall_crops_key_ne state_x state_y
    · intro a ha
      rcases List.mem_cons.mp ha with h | ha2
      · exact h ▸ rainfall_crops_key_ne state_y state_x
      · rcases List.mem_singleton.mp ha2 with h
        exact h ▸ rainfall_crops_key_ne state_y state_y
    · intro a ha
      rcases List.mem_singleton.mp ha with h
      exact h ▸ k2
  · rw [hcit, hshape]
    simp

/-! ### Concrete environments for the comparison witnesses -/

/-- Witness rainfall record: year 2008, annual 500. -/
def wRainRec : Record := [("year", Value.num 2008), ("annual", Value.num 500)]

/-- Witness crop record: Gram (a pulse), 2008, production 5. -/
def wCropRec1 : Record :=
  [("crop", Value.str "Gram"), ("crop_year", Value.num 2008), ("production_", Value.num 5)]

/-- Witness crop record: Moong (a pulse), 2008, production 3. -/
def wCropRec2 : Record :=
  [("crop", Value.str "Moong"), ("crop_year", Value.num 2008), ("production_", Value.num 3)]

/-- Witness rainfall gateway environment: every subdivision succeeds. -/
def wRainEnv : String → ApiResult := fun sub =>
  { success := true, data := [wRainRec], total := 1, error := "", url := "r-" ++ sub }

/-- Witness crop gateway environment: every state succeeds. -/
def wCropEnv : String → ApiResult := fun st =>
  { success := true, data := [wCropRec1, wCropRec2], total := 2, error := "", url := "c-" ++ st }

/-- The witness comparison call (two mapped, distinct states; category
`Pulses`). -/
def wcmpOut : PyOutcome CompareResult × List CallEvent :=
  compare_rainfall_and_crops wRainEnv wCropEnv "Kerala" "Punjab" 5 "Pulses"

/-- A placeholder comparison result. -/
def cmpDummy : CompareResult :=
  { states := [], years_analyzed := 0, crop_type := "", rainfall_comparison := [],
    crop_comparison := [], citations := [] }

/-- The concrete comparison result of the witness call. -/
def wcmpRes : CompareResult :=
  match wcmpOut.1 with
  | .ok r => r
  | _ => cmpDummy

/-- Witness for the comparison result-shape theorem at the concrete call:
Kerala's top-crops entry obeys the length/sort bounds and the citations
map is exactly the four expected entries. -/
theorem compare_rainfall_and_crops_result_shape_witness :
    ((dget wcmpRes.crop_comparison "Kerala" cropEntryDflt).top_3_crops.length ≤ 3 ∧
      List.Pairwise (fun a b : Value × ℚ => b.2 ≤ a.2)
        (dget wcmpRes.crop_comparison "Kerala" cropEntryDflt).top_3_crops) ∧
    dkeys wcmpRes.citations = ["Kerala" ++ "_rainfall", "Punjab" ++ "_rainfall",
      "Kerala" ++ "_crops", "Punjab" ++ "_crops"] ∧
    (dkeys wcmpRes.citations).Nodup ∧
    wcmpRes.citations ≠ [] := by
  have h := compare_rainfall_and_crops_result_shape wRainEnv wCropEnv "Kerala" "Punjab" 5
    "Pulses" wcmpRes wcmpOut.2 rfl (by decide)
  refine ⟨h.1 ("Kerala", dget wcmpRes.crop_comparison "Kerala" cropEntryDflt) ?_,
    h.2.1, h.2.2.1, h.2.2.2⟩
  rw [show wcmpRes.crop_comparison =
    [("Kerala", dget wcmpRes.crop_comparison "Kerala" cropEntryDflt),
     ("Punjab", dget wcmpRes.crop_comparison "Punjab" cropEntryDflt)] from rfl]
  exact List.mem_cons_self _ _

/-! ### Correlation / policy analysis (`analyze_correlation_and_policy`,
src/tools.py lines 347–467)

`np.corrcoef` computes a Pearson coefficient, which involves square
roots and is not rational; it is abstracted as an oracle parameter
`corrF` — no claim under verification depends on the coefficient's
value, only on where it is (not) computed and used. -/

/-- Per-state entry of `state_analysis`. -/
structure StateEntry where
  avg_annual_rainfall_mm : ℚ
  high_water_crop_production_avg : ℚ
  low_water_crop_production_avg : ℚ
  corr_high : ℚ
  corr_low : ℚ
  years_analyzed : ℕ
  src_rainfall : String
  src_crops : String
deriving DecidableEq

/-- One policy recommendation. -/
structure Recommendation where
  state : String
  recommendation : String
  rationale : String
  supporting_data : String
deriving DecidableEq

/-- Result shape of `analyze_correlation_and_policy`. -/
structure PolicyResult where
  states : List String
  years_analyzed : ℤ
  state_analysis : List (String × StateEntry)
  policy_recommendations : List Recommendation
  citations : List (String × (String × String))
deriving DecidableEq

/-- One step of the per-year rainfall aggregation (line 375): `int()` on
the year field can raise; valid positive annuals are appended to the
year's list. -/
def rainByYearStep (acc : List (ℤ × List ℚ)) (r : Record) :
    Except PyErr (List (ℤ × List ℚ)) := do
  let year ← pyIntExc (rget r "year" (Value.num 0))
  let annual := safe_float_convert (rget r "annual" Value.none) 0
  if year ≠ 0 ∧ qlt 0 annual = true then
    pure (dinsert acc year ((dget acc year []) ++ [annual]))
  else pure acc

/-- Per-year rainfall lists. -/
def rainfall_by_year (data : List Record) : Except PyErr (List (ℤ × List ℚ)) :=
  data.foldlM rainByYearStep []

/-- Average rainfall across subdivisions per year. -/
def avg_rainfall_by_year (d : List (ℤ × List ℚ)) : List (ℤ × ℚ) :=
  d.map (fun p => (p.1, npMean p.2))

/-- One step of the water-use bucket aggregation (lines 392–402). -/
def waterBucketsStep (acc : List (ℤ × ℚ) × List (ℤ × ℚ)) (r : Record) :
    Except PyErr (List (ℤ × ℚ) × List (ℤ × ℚ)) := do
  let year ← pyIntExc (rget r "crop_year" (Value.num 0))
  let production := safe_float_convert (rget r "production_" (Value.num 0)) 0
  let water_use :=
    match rget r "crop" (Value.str "") with
    | Value.str s => dget CROP_ATTRIBUTES_WATER s "Unknown"
    | _ => "Unknown"
  if water_use = "High" then
    pure (dinsert acc.1 year (qadd (dget acc.1 year 0) production), acc.2)
  else if water_use = "Low" then
    pure (acc.1, dinsert acc.2 year (qadd (dget acc.2 year 0) production))
  else pure acc

/-- Insertion of an integer into an ascending list (used to model
Python `sorted` over integer years). -/
def sortedInsert (y : ℤ) : List ℤ → List ℤ
  | [] => [y]
  | x :: xs => if y ≤ x then y :: x :: xs else x :: sortedInsert y xs

/-- Ascending insertion sort over integers. -/
def sortInts (l : List ℤ) : List ℤ := l.foldr sortedInsert []

/-- `sorted(set(a) & set(b) & set(c))` over dictionary key lists. -/
def common_years_of (rainYears highYears lowYears : List ℤ) : List ℤ :=
  sortInts (rainYears.filter (fun y => highYears.contains y && lowYears.contains y))

/-- Python `f"{q:.2f}"`, under the fraction-rendering model of numbers. -/
def fmt2 (q : ℚ) : String := String.mk (qChars (pyRound 2 q))

/-- The per-state body of the analysis loop: `Option.none` models
`continue` (unmapped subdivisions, failed fetch, or fewer than 3 common
years). -/
def analyze_state (rainEnv cropEnv : String → ApiResult) (corrF : List ℚ → List ℚ → ℚ)
    (years : ℤ) (state : String) : Except PyErr (Option StateEntry) :=
  match get_subdivisions_for_state state with
  | [] => pure Option.none
  | s :: ss =>
    let rain_result := fetch_rainfall_data rainEnv (s :: ss) years
    let crop_result := fetch_crop_data years (cropEnv state)
    if rain_result.success = false ∨ crop_result.success = false then
      pure Option.none
    else do
      let rby ← rainfall_by_year rain_result.data
      let avg := avg_rainfall_by_year rby
      let buckets ← crop_result.data.foldlM waterBucketsStep ([], [])
      let common := common_years_of (dkeys avg) (dkeys buckets.1) (dkeys buckets.2)
      if 3 ≤ common.length then
        let rainfall_vals := common.map (fun y => dget avg y 0)
        let high_vals := common.map (fun y => dget buckets.1 y 0)
        let low_vals := common.map (fun y => dget buckets.2 y 0)
        let corr_high := if 1 < rainfall_vals.length then corrF rainfall_vals high_vals else 0
        let corr_low := if 1 < rainfall_vals.length then corrF rainfall_vals low_vals else 0
        pure (some
          { avg_annual_rainfall_mm := pyRound 2 (npMean (avg.map Prod.snd)),
            high_water_crop_production_avg := pyRound 2 (npMean (buckets.1.map Prod.snd)),
            low_water_crop_production_avg := pyRound 2 (npMean (buckets.2.map Prod.snd)),
            corr_high := pyRound 3 corr_high,
            corr_low := pyRound 3 corr_low,
            years_analyzed := common.length,
            src_rainfall := rain_result.url,
            src_crops := crop_result.url })
      else pure Option.none

/-- The recommendation heuristic for one analyzed state (lines 433–460):
each of the three conditions contributes its recommendation
independently. -/
def recommend_for (state : String) (a : StateEntry) : List Recommendation :=
  (if qlt a.avg_annual_rainfall_mm 800 then
    [{ state := state,
       recommendation := "Promote drought-resistant crops (millets, pulses)",
       rationale := "Low average rainfall (" ++ String.mk (qChars a.avg_annual_rainfall_mm) ++
         "mm) makes high-water crops risky",
       supporting_data := "High-water crops show " ++ fmt2 (qabs a.corr_high) ++
         " correlation sensitivity" }]
  else []) ++
  (if qlt (mkRat 7 10) a.corr_high then
    [{ state := state,
       recommendation := "Expand irrigation infrastructure for water-intensive crops",
       rationale := "Strong positive correlation (" ++ fmt2 a.corr_high ++
         ") shows high-water crops respond well to rainfall",
       supporting_data := "Historical production aligns with rainfall patterns" }]
  else []) ++
  (if qlt (qabs a.corr_low) (qabs a.corr_high) then
    [{ state := state,
       recommendation := "Drought-resistant crops provide production stability",
       rationale := "Lower correlation (" ++ fmt2 a.corr_low ++
         ") indicates resilience to rainfall variation",
       supporting_data := "Consistent production despite climate variability" }]
  else [])

/-- One iteration of the analysis loop: insert the state entry if the
state was analyzed, otherwise keep the accumulator (`continue`). -/
def policyStep (rainEnv cropEnv : String → ApiResult) (corrF : List ℚ → List ℚ → ℚ)
    (years : ℤ) (acc : List (String × StateEntry)) (st : String) :
    Except PyErr (List (String × StateEntry)) := do
  match ← analyze_state rainEnv cropEnv corrF years st with
  | some v => pure (dinsert acc st v)
  | Option.none => pure acc

/-- Embedding of `analyze_correlation_and_policy`. -/
def analyze_correlation_and_policy (rainEnv cropEnv : String → ApiResult)
    (corrF : List ℚ → List ℚ → ℚ) (state_x state_y : String) (years : ℤ) :
    Except PyErr PolicyResult := do
  let sa ← [state_x, state_y].foldlM (policyStep rainEnv cropEnv corrF years) []
  pure { states := [state_x, state_y], years_analyzed := years, state_analysis := sa,
         policy_recommendations := sa.foldl (fun acc p => acc ++ recommend_for p.1 p.2) [],
         citations := sa.map (fun p => (p.1, (p.2.src_rainfall, p.2.src_crops))) }

/-! ### Tool façade (`analyze_agricultural_data_func`, src/tools.py lines 492–525)

`json.dumps` is modelled per result type by explicit serializers (the
`indent=2` pretty-printing and CPython's float text are abstracted; no
claim inspects the text of a success payload). -/

/-- JSON string escaping (quote and backslash; the embedded messages
contain no control characters). -/
def jsonEscape (s : String) : String :=
  String.mk (s.data.foldr
    (fun c acc => if c = '"' ∨ c = '\\' then '\\' :: c :: acc else c :: acc) [])

/-- A JSON string literal. -/
def jstr (s : String) : String := "\"" ++ jsonEscape s ++ "\""

/-- A JSON number (fraction-rendering model). -/
def jnum (q : ℚ) : String := String.mk (qChars q)

/-- A JSON object from pre-serialized field values. -/
def jobj (fields : List (String × String)) : String :=
  "\x7b" ++ String.intercalate ", " (fields.map (fun p => jstr p.1 ++ ": " ++ p.2)) ++ "\x7d"

/-- A JSON array from pre-serialized items. -/
def jarr (items : List String) : String := "[" ++ String.intercalate ", " items ++ "]"

/-- `json.dumps({"error": msg})`. -/
def json_dumps_error (msg : String) : String := jobj [("error", jstr msg)]

/-- Model of Python `needle in hay` on `String`. -/
def strContains (hay needle : String) : Bool := strHas needle.data hay.data

/-- Serialize a scalar value. -/
def encodeValue : Value → String
  | Value.none => "null"
  | Value.str s => jstr s
  | Value.num q => jnum q

/-- Serialize a rainfall entry. -/
def encodeRainEntry (e : RainEntry) : String :=
  jobj [("average_annual_rainfall_mm", jnum e.average_annual_rainfall_mm),
        ("data_points", jnum (qofInt e.data_points)),
        ("subdivisions", jarr (e.subdivisions.map jstr)),
        ("source_url", jstr e.source_url)]

/-- Serialize a crop entry. -/
def encodeCropEntry (e : CropEntry) : String :=
  jobj [("top_3_crops", jarr (e.top_3_crops.map (fun p =>
          jobj [("crop", encodeValue p.1), ("total_production", jnum p.2)]))),
        ("source_url", jstr e.source_url)]

/-- Serialize a comparison result. -/
def encodeCompareResult (r : CompareResult) : String :=
  jobj [("query_type", jstr "COMPARE_ALL"),
        ("states", jarr (r.states.map jstr)),
        ("years_analyzed", jnum (qofInt r.years_analyzed)),
        ("crop_type", jstr r.crop_type),
        ("rainfall_comparison", jobj (r.rainfall_comparison.map
          (fun p => (p.1, encodeRainEntry p.2)))),
        ("crop_comparison", jobj (r.crop_comparison.map (fun p => (p.1, encodeCropEntry p.2)))),
        ("citations", jobj (r.citations.map (fun p => (p.1, jstr p.2))))]

/-- Serialize the ratio field. -/
def encodeRatio : RatioVal → String
  | .num q => jnum q
  | .label s => jstr s

/-- Serialize an extremal-lookup result. -/
def encodeMaxMinOut (r : MaxMinOut) : String :=
  jobj [("query_type", jstr "MAX_MIN_CROP"),
        ("crop", jstr r.crop),
        ("years_analyzed", jnum (qofInt r.years_analyzed)),
        ("max_production_district", encodeValue r.max_production_district),
        ("max_total_production", jnum r.max_total),
        ("min_production_district", encodeValue r.min_production_district),
        ("min_total_production", jnum r.min_total),
        ("production_ratio", encodeRatio r.production_ratio),
        ("difference", jnum r.difference),
        ("citations", jobj (r.citations.map (fun p => (p.1, jstr p.2))))]

/-- Serialize a per-state analysis entry. -/
def encodeStateEntry (e : StateEntry) : String :=
  jobj [("avg_annual_rainfall_mm", jnum e.avg_annual_rainfall_mm),
        ("high_water_crop_production_avg", jnum e.high_water_crop_production_avg),
        ("low_water_crop_production_avg", jnum e.low_water_crop_production_avg),
        ("correlation_rainfall_vs_high_water_crops", jnum e.corr_high),
        ("correlation_rainfall_vs_low_water_crops", jnum e.corr_low),
        ("years_analyzed", jnum (qofInt e.years_analyzed)),
        ("sources", jobj [("rainfall", jstr e.src_rainfall), ("crops", jstr e.src_crops)])]

/-- Serialize a recommendation. -/
def encodeRecommendation (r : Recommendation) : String :=
  jobj [("state", jstr r.state), ("recommendation", jstr r.recommendation),
        ("rationale", jstr r.rationale), ("supporting_data", jstr r.supporting_data)]

/-- Serialize a policy-analysis result. -/
def encodePolicyResult (r : PolicyResult) : String :=
  jobj [("query_type", jstr "POLICY_ADVICE"),
        ("states", jarr (r.states.map jstr)),
        ("years_analyzed", jnum (qofInt r.years_analyzed)),
        ("state_analysis", jobj (r.state_analysis.map (fun p => (p.1, encodeStateEntry p.2)))),
        ("policy_recommendations", jarr (r.policy_recommendations.map encodeRecommendation)),
        ("citations", jobj (r.citations.map (fun p =>
          (p.1, jobj [("rainfall", jstr p.2.1), ("crops", jstr p.2.2)]))))]

/-- The body of the façade's `try` block: dispatch on `metric`, with the
missing-parameter and unknown-metric early returns; an exception raised
inside a dispatched routine propagates as `.error`. -/
def analyze_dispatch
    (compareF : String → String → ℤ → String → PyOutcome CompareResult)
    (maxminF : String → String → String → ℤ → PyOutcome MaxMinOut)
    (policyF : String → String → ℤ → PyOutcome PolicyResult)
    (state_x state_y : String) (years : ℤ) (metric : String)
    (crop_type crop_z : Option String) : Except PyErr String :=
  if metric = "COMPARE_ALL" then
    match crop_type with
    | Option.none => .ok (json_dumps_error "crop_type required for COMPARE_ALL metric")
    | some ct =>
      if ct = "" then .ok (json_dumps_error "crop_type required for COMPARE_ALL metric")
      else
        match compareF state_x state_y years ct with
        | .ok r => .ok (encodeCompareResult r)
        | .errDict m => .ok (json_dumps_error m)
        | .raised e => .error e
  else if metric = "MAX_MIN_CROP" then
    match crop_z with
    | Option.none => .ok (json_dumps_error "crop_z required for MAX_MIN_CROP metric")
    | some cz =>
      if cz = "" then .ok (json_dumps_error "crop_z required for MAX_MIN_CROP metric")
      else
        match maxminF state_x state_y cz years with
        | .ok r => .ok (encodeMaxMinOut r)
        | .errDict m => .ok (json_dumps_error m)
        | .raised e => .error e
  else if metric = "POLICY_ADVICE" then
    match policyF state_x state_y years with
    | .ok r => .ok (encodePolicyResult r)
    | .errDict m => .ok (json_dumps_error m)
    | .raised e => .error e
  else .ok (json_dumps_error ("Unknown metric: " ++ metric))

/-- Embedding of `analyze_agricultural_data_func`: the `except Exception`
catch-all converts any exception into an error payload — the façade
always returns a string. -/
def analyze_agricultural_data_func
    (compareF : String → String → ℤ → String → PyOutcome CompareResult)
    (maxminF : String → String → String → ℤ → PyOutcome MaxMinOut)
    (policyF : String → String → ℤ → PyOutcome PolicyResult)
    (state_x state_y : String) (years : ℤ) (metric : String)
    (crop_type crop_z : Option String) : String :=
  match analyze_dispatch compareF maxminF policyF state_x state_y years metric crop_type
    crop_z with
  | .ok s => s
  | .error e => json_dumps_error ("Analysis failed: " ++ e.text)

/-- C5: the façade never propagates an exception — any exception escaping
the dispatched routine is caught and converted to an error payload
carrying the failure description; `COMPARE_ALL` without `crop_type`
yields an error payload naming `crop_type`; `MAX_MIN_CROP` without
`crop_z` yields one naming `crop_z`; an unrecognized metric yields an
error payload naming that value; and every outcome is a JSON string. -/
theorem analyze_agricultural_data_func_boundary
    (compareF : String → String → ℤ → String → PyOutcome CompareResult)
    (maxminF : String → String → String → ℤ → PyOutcome MaxMinOut)
    (policyF : String → String → ℤ → PyOutcome PolicyResult)
    (state_x state_y : String) (years : ℤ) (metric : String)
    (crop_type crop_z : Option String) :
    (∀ e, analyze_dispatch compareF maxminF policyF state_x state_y years metric crop_type
        crop_z = .error e →
      analyze_agricultural_data_func compareF maxminF policyF state_x state_y years metric
        crop_type crop_z = json_dumps_error ("Analysis failed: " ++ e.text)) ∧
    (metric = "COMPARE_ALL" → crop_type = Option.none ∨ crop_type = some "" →
      analyze_agricultural_data_func compareF maxminF policyF state_x state_y years metric
          crop_type crop_z = json_dumps_error "crop_type required for COMPARE_ALL metric" ∧
      strContains (analyze_agricultural_data_func compareF maxminF policyF state_x state_y
        years metric crop_type crop_z) "crop_type" = true) ∧
    (metric = "MAX_MIN_CROP" → crop_z = Option.none ∨ crop_z = some "" →
      analyze_agricultural_data_func compareF maxminF policyF state_x state_y years metric
          crop_type crop_z = json_dumps_error "crop_z required for MAX_MIN_CROP metric" ∧
      strContains (analyze_agricultural_data_func compareF maxminF policyF state_x state_y
        years metric crop_type crop_z) "crop_z" = true) ∧
    (metric ≠ "COMPARE_ALL" → metric ≠ "MAX_MIN_CROP" → metric ≠ "POLICY_ADVICE" →
      analyze_agricultural_data_func compareF maxminF policyF state_x state_y years metric
        crop_type crop_z = json_dumps_error ("Unknown metric: " ++ metric)) ∧
    (∀ ct e, metric = "COMPARE_ALL" → crop_type = some ct → ¬ct = "" →
      compareF state_x state_y years ct = .raised e →
      analyze_agricultural_data_func compareF maxminF policyF state_x state_y years metric
        crop_type crop_z = json_dumps_error ("Analysis failed: " ++ e.text)) ∧
    (∀ cz e, metric = "MAX_MIN_CROP" → crop_z = some cz → ¬cz = "" →
      maxminF state_x state_y cz years = .raised e →
      analyze_agricultural_data_func compareF maxminF policyF state_x state_y years metric
        crop_type crop_z = json_dumps_error ("Analysis failed: " ++ e.text)) ∧
    (∀ e, metric = "POLICY_ADVICE" → policyF state_x state_y years = .raised e →
      analyze_agricultural_data_func compareF maxminF policyF state_x state_y years metric
        crop_type crop_z = json_dumps_error ("Analysis failed: " ++ e.text)) := by
  refine ⟨?_, ?_, ?_, ?_, ?_, ?_, ?_⟩
  · intro e he
    rw [analyze_agricultural_data_func, he]
  · intro hm hct
    subst hm
    rcases hct with h | h <;> subst h
    · have h1 : analyze_agricultural_data_func compareF maxminF policyF state_x state_y years
          "COMPARE_ALL" Option.none crop_z =
          json_dumps_error "crop_type required for COMPARE_ALL metric" := rfl
      exact ⟨h1, by rw [h1]; decide⟩
    · have h1 : analyze_agricultural_data_func compareF maxminF policyF state_x state_y years
          "COMPARE_ALL" (some "") crop_z =
          json_dumps_error "crop_type required for COMPARE_ALL metric" := rfl
      exact ⟨h1, by rw [h1]; decide⟩
  · intro hm hcz
    subst hm
    rcases hcz with h | h <;> subst h
    · have h1 : analyze_agricultural_data_func compareF maxminF policyF state_x state_y years
          "MAX_MIN_CROP" crop_type Option.none =
          json_dumps_error "crop_z required for MAX_MIN_CROP metric" := rfl
      exact ⟨h1, by rw [h1]; decide⟩
    · have h1 : analyze_agricultural_data_func compareF maxminF policyF state_x state_y years
          "MAX_MIN_CROP" crop_type (some "") =
          json_dumps_error "crop_z required for MAX_MIN_CROP metric" := rfl
      exact ⟨h1, by rw [h1]; decide⟩
  · intro h1 h2 h3
    rw [analyze_agricultural_data_func, analyze_dispatch.eq_def, if_neg h1, if_neg h2, if_neg h3]
  · intro ct e hm hct hne hraise
    subst hm
    subst hct
    have hstep : analyze_dispatch compareF maxminF policyF state_x state_y years "COMPARE_ALL"
        (some ct) crop_z =
        (if ct = "" then .ok (json_dumps_error "crop_type required for COMPARE_ALL metric")
         else match compareF state_x state_y years ct with
           | .ok r => .ok (encodeCompareResult r)
           | .errDict m => .ok (json_dumps_error m)
           | .raised e => .error e) := rfl
    have hd : analyze_dispatch compareF maxminF policyF state_x state_y years "COMPARE_ALL"
        (some ct) crop_z = .error e := by
      rw [hstep, if_neg hne, hraise]
    rw [analyze_agricultural_data_func, hd]
  · intro cz e hm hcz hne hraise
    subst hm
    subst hcz
    have hstep : analyze_dispatch compareF maxminF policyF state_x state_y years "MAX_MIN_CROP"
        crop_type (some cz) =
        (if cz = "" then .ok (json_dumps_error "crop_z required for MAX_MIN_CROP metric")
         else match maxminF state_x state_y cz years with
           | .ok r => .ok (encodeMaxMinOut r)
           | .errDict m => .ok (json_dumps_error m)
           | .raised e => .error e) := rfl
    have hd : analyze_dispatch compareF maxminF policyF state_x state_y years "MAX_MIN_CROP"
        crop_type (some cz) = .error e := by
      rw [hstep, if_neg hne, hraise]
    rw [analyze_agricultural_data_func, hd]
  · intro e hm hraise
    subst hm
    have hstep : analyze_dispatch compareF maxminF policyF state_x state_y years "POLICY_ADVICE"
        crop_type crop_z =
        (match policyF state_x state_y years with
         | .ok r => .ok (encodePolicyResult r)
         | .errDict m => .ok (json_dumps_error m)
         | .raised e => .error e) := rfl
    have hd : analyze_dispatch compareF maxminF policyF state_x state_y years "POLICY_ADVICE"
        crop_type crop_z = .error e := by
      rw [hstep, hraise]
    rw [analyze_agricultural_data_func, hd]

/-- Constant-outcome routines for the façade witness. -/
def wCompareF : String → String → ℤ → String → PyOutcome CompareResult :=
  fun _ _ _ _ => .ok cmpDummy

/-- As `wCompareF`, for the extremal lookup. -/
def wMaxminF : String → String → String → ℤ → PyOutcome MaxMinOut :=
  fun _ _ _ _ => .ok mmDummy

/-- A placeholder policy result. -/
def polDummy : PolicyResult :=
  { states := [], years_analyzed := 0, state_analysis := [],
    policy_recommendations := [], citations := [] }

/-- As `wCompareF`, for the policy analysis. -/
def wPolicyF : String → String → ℤ → PyOutcome PolicyResult :=
  fun _ _ _ => .ok polDummy

/-- A routine that raises, for the catch-all conjunct of the witness. -/
def wCompareFRaise : String → String → ℤ → String → PyOutcome CompareResult :=
  fun _ _ _ _ => .raised (.valueError "boom")

/-- Witness for the façade boundary theorem at concrete inputs. -/
theorem analyze_agricultural_data_func_boundary_witness :
    (analyze_agricultural_data_func wCompareF wMaxminF wPolicyF "A" "B" 5 "COMPARE_ALL"
        Option.none Option.none
      = json_dumps_error "crop_type required for COMPARE_ALL metric" ∧
      strContains (analyze_agricultural_data_func wCompareF wMaxminF wPolicyF "A" "B" 5
        "COMPARE_ALL" Option.none Option.none) "crop_type" = true) ∧
    (analyze_agricultural_data_func wCompareF wMaxminF wPolicyF "A" "B" 5 "MAX_MIN_CROP"
        Option.none Option.none
      = json_dumps_error "crop_z required for MAX_MIN_CROP metric" ∧
      strContains (analyze_agricultural_data_func wCompareF wMaxminF wPolicyF "A" "B" 5
        "MAX_MIN_CROP" Option.none Option.none) "crop_z" = true) ∧
    analyze_agricultural_data_func wCompareF wMaxminF wPolicyF "A" "B" 5 "BOGUS"
        Option.none Option.none
      = json_dumps_error ("Unknown metric: " ++ "BOGUS") ∧
    strContains (analyze_agricultural_data_func wCompareF wMaxminF wPolicyF "A" "B" 5 "BOGUS"
        Option.none Option.none) "BOGUS" = true ∧
    analyze_agricultural_data_func wCompareFRaise wMaxminF wPolicyF "A" "B" 5 "COMPARE_ALL"
        (some "Pulses") Option.none
      = json_dumps_error ("Analysis failed: " ++ "boom") := by
  refine ⟨?_, ?_, ?_, ?_, ?_⟩
  · exact (analyze_agricultural_data_func_boundary wCompareF wMaxminF wPolicyF "A" "B" 5
      "COMPARE_ALL" Option.none Option.none).2.1 rfl (Or.inl rfl)
  · exact (analyze_agricultural_data_func_boundary wCompareF wMaxminF wPolicyF "A" "B" 5
      "MAX_MIN_CROP" Option.none Option.none).2.2.1 rfl (Or.inl rfl)
  · exact (analyze_agricultural_data_func_boundary wCompareF wMaxminF wPolicyF "A" "B" 5
      "BOGUS" Option.none Option.none).2.2.2.1 (by decide) (by decide) (by decide)
  · decide
  · exact (analyze_agricultural_data_func_boundary wCompareFRaise wMaxminF wPolicyF "A" "B" 5
      "COMPARE_ALL" (some "Pulses") Option.none).2.2.2.2.1 "Pulses" (.valueError "boom")
      rfl rfl (by decide) rfl

/-! ### Configuration-error surfacing (C9) -/

theorem rainPhase_unmapped_not_ok (rainEnv : String → ApiResult) (years : ℤ) {st : String}
    (hsub : get_subdivisions_for_state st = []) :
    ∀ (states : List String), st ∈ states →
      ∀ (acc : List (String × RainEntry)) res lg,
        rainPhase rainEnv years states acc ≠ (.ok res, lg) := by
  intro states
  induction states with
  | nil => intro hmem; cases hmem
  | cons state rest ih =>
    intro hmem acc res lg h
    rcases List.mem_cons.mp hmem with he | hmem2
    · subst he
      rw [rainPhase] at h
      rw [hsub] at h
      injection h with h1 h2
      exact PyOutcome.noConfusion h1
    · rw [rainPhase] at h
      rcases hs : get_subdivisions_for_state state with _ | ⟨s, ss⟩
      · rw [hs] at h
        injection h with h1 h2
        exact PyOutcome.noConfusion h1
      · rw [hs] at h
        simp only [] at h
        split at h
        · injection h with h1 h2
          exact PyOutcome.noConfusion h1
        · split at h
          · injection h with h1 h2
            exact PyOutcome.noConfusion h1
          · rcases hrec : rainPhase rainEnv years rest (dinsert acc state
                { average_annual_rainfall_mm := pyRound 2 (npMean
                    (((fetch_rainfall_data rainEnv (s :: ss) years).data.map
                      (fun r => safe_float_convert (rget r "annual" Value.none) 0)).filter
                      (fun a => qlt 0 a))),
                  data_points := (((fetch_rainfall_data rainEnv (s :: ss) years).data.map
                    (fun r => safe_float_convert (rget r "annual" Value.none) 0)).filter
                    (fun a => qlt 0 a)).length,
                  subdivisions := s :: ss,
                  source_url := (fetch_rainfall_data rainEnv (s :: ss) years).url }) with ⟨o, lgt⟩
            rw [hrec] at h
            injection h with h1 h2
            subst h1
            exact ih hmem2 _ res lgt hrec

theorem cropPhase_unknown_type_not_ok (cropEnv : String → ApiResult) {crop_type : String}
    (years : ℤ) (hct : dget CROP_TYPES crop_type [] = []) (state : String)
    (rest : List String) :
    ∀ (acc : List (String × CropEntry)) res lg,
      cropPhase cropEnv crop_type years (state :: rest) acc ≠ (.ok res, lg) := by
  intro acc res lg h
  simp only [cropPhase] at h
  split at h
  · injection h with h1 h2
    exact PyOutcome.noConfusion h1
  · rw [hct] at h
    injection h with h1 h2
    exact PyOutcome.noConfusion h1

/-- C9 (amended): configuration errors are always surfaced as structured
errors and are never retried.  An unknown metric or a missing required
parameter is rejected by the façade before any dispatch (the result does
not depend on the dispatched routines); an unmapped `state_x` is
rejected before any fetch (empty call log); an unmapped `state_y` or an
unknown crop category also always forces a structured error — but, as
the counterexample shows, its detection may occur after earlier fetch
activity. -/
theorem config_errors_surfaced
    (rainEnv cropEnv : String → ApiResult) (state_x state_y : String) (years : ℤ)
    (crop_type : String)
    (compareF compareF2 : String → String → ℤ → String → PyOutcome CompareResult)
    (maxminF maxminF2 : String → String → String → ℤ → PyOutcome MaxMinOut)
    (policyF policyF2 : String → String → ℤ → PyOutcome PolicyResult)
    (metric : String) (crop_type_arg crop_z_arg : Option String) :
    (get_subdivisions_for_state state_x = [] →
      compare_rainfall_and_crops rainEnv cropEnv state_x state_y years crop_type =
        (.errDict ("No IMD subdivision mapping found for " ++ state_x ++
          ". Please update config.py with correct subdivision names."), [])) ∧
    (get_subdivisions_for_state state_y = [] →
      ∀ res lg, compare_rainfall_and_crops rainEnv cropEnv state_x state_y years crop_type
        ≠ (.ok res, lg)) ∧
    (dget CROP_TYPES crop_type [] = [] →
      ∀ res lg, compare_rainfall_and_crops rainEnv cropEnv state_x state_y years crop_type
        ≠ (.ok res, lg)) ∧
    (metric ≠ "COMPARE_ALL" → metric ≠ "MAX_MIN_CROP" → metric ≠ "POLICY_ADVICE" →
      analyze_agricultural_data_func compareF maxminF policyF state_x state_y years metric
          crop_type_arg crop_z_arg =
        analyze_agricultural_data_func compareF2 maxminF2 policyF2 state_x state_y years metric
          crop_type_arg crop_z_arg) ∧
    (metric = "COMPARE_ALL" → crop_type_arg = Option.none ∨ crop_type_arg = some "" →
      analyze_agricultural_data_func compareF maxminF policyF state_x state_y years metric
          crop_type_arg crop_z_arg =
        analyze_agricultural_data_func compareF2 maxminF2 policyF2 state_x state_y years metric
          crop_type_arg crop_z_arg) := by
  refine ⟨?_, ?_, ?_, ?_, ?_⟩
  · intro hsub
    have h1 : rainPhase rainEnv years [state_x, state_y] [] =
        (.errDict ("No IMD subdivision mapping found for " ++ state_x ++
          ". Please update config.py with correct subdivision names."), []) := by
      rw [rainPhase, hsub]
    rw [compare_rainfall_and_crops, h1]
  · intro hsub res lg h
    rcases hcmp : (compare_rainfall_and_crops rainEnv cropEnv state_x state_y years crop_type).1
      with a | m | e
    · have hpair : compare_rainfall_and_crops rainEnv cropEnv state_x state_y years crop_type
          = (.ok a, (compare_rainfall_and_crops rainEnv cropEnv state_x state_y years
            crop_type).2) := by
        rw [← hcmp]
      obtain ⟨rain, lg1, crop, lg2, hrain, -⟩ := compare_ok_inversion hpair
      exact rainPhase_unmapped_not_ok rainEnv years hsub [state_x, state_y]
        (List.mem_cons_of_mem _ (List.mem_singleton.mpr rfl)) [] rain lg1 hrain
    · rw [h] at hcmp
      exact PyOutcome.noConfusion hcmp
    · rw [h] at hcmp
      exact PyOutcome.noConfusion hcmp
  · intro hct res lg h
    obtain ⟨rain, lg1, crop, lg2, hrain, hcrop, -⟩ := compare_ok_inversion h
    exact cropPhase_unknown_type_not_ok cropEnv years hct state_x [state_y] [] crop lg2 hcrop
  · intro h1 h2 h3
    have e1 : analyze_agricultural_data_func compareF maxminF policyF state_x state_y years
        metric crop_type_arg crop_z_arg = json_dumps_error ("Unknown metric: " ++ metric) := by
      rw [analyze_agricultural_data_func, analyze_dispatch.eq_def, if_neg h1, if_neg h2,
        if_neg h3]
    have e2 : analyze_agricultural_data_func compareF2 maxminF2 policyF2 state_x state_y years
        metric crop_type_arg crop_z_arg = json_dumps_error ("Unknown metric: " ++ metric) := by
      rw [analyze_agricultural_data_func, analyze_dispatch.eq_def, if_neg h1, if_neg h2,
        if_neg h3]
    exact e1.trans e2.symm
  · intro hm hct
    subst hm
    rcases hct with h | h <;> subst h <;> rfl

/-- Counterexample to C9 as stated: with every fetch succeeding and the
unknown crop category `Bogus`, the comparison returns the structured
configuration error only after performing three upstream fetches (both
states' rainfall and `state_x`'s crop data), so a configuration error is
not always surfaced "before and without performing any upstream fetch". -/
theorem config_error_after_fetch_counterexample :
    (compare_rainfall_and_crops wRainEnv wCropEnv "Kerala" "Punjab" 5 "Bogus").1
      = .errDict ("Unknown crop type: Bogus. Valid types: " ++ pyListRepr (dkeys CROP_TYPES)) ∧
    (compare_rainfall_and_crops wRainEnv wCropEnv "Kerala" "Punjab" 5 "Bogus").2
      = [CallEvent.rain "Kerala", CallEvent.rain "Punjab", CallEvent.crop "Kerala"] ∧
    (compare_rainfall_and_crops wRainEnv wCropEnv "Kerala" "Punjab" 5 "Bogus").2 ≠ [] := by
  refine ⟨rfl, rfl, ?_⟩
  intro h
  rw [show (compare_rainfall_and_crops wRainEnv wCropEnv "Kerala" "Punjab" 5 "Bogus").2
    = [CallEvent.rain "Kerala", CallEvent.rain "Punjab", CallEvent.crop "Kerala"] from rfl] at h
  exact List.noConfusion h

/-- Witness for the amended configuration-error theorem at concrete
inputs: an unmapped `state_x` errors with an empty call log; an unknown
crop category never yields a successful result; an unknown metric and a
missing `crop_type` leave the façade independent of the routines. -/
theorem config_errors_surfaced_witness :
    compare_rainfall_and_crops wRainEnv wCropEnv "Atlantis" "Punjab" 5 "Pulses" =
      (.errDict ("No IMD subdivision mapping found for " ++ "Atlantis" ++
        ". Please update config.py with correct subdivision names."), []) ∧
    compare_rainfall_and_crops wRainEnv wCropEnv "Kerala" "Punjab" 5 "Bogus"
      ≠ (.ok cmpDummy, [CallEvent.rain "Kerala", CallEvent.rain "Punjab",
          CallEvent.crop "Kerala"]) ∧
    analyze_agricultural_data_func wCompareF wMaxminF wPolicyF "A" "B" 5 "BOGUS"
        Option.none Option.none =
      analyze_agricultural_data_func wCompareFRaise wMaxminF wPolicyF "A" "B" 5 "BOGUS"
        Option.none Option.none ∧
    analyze_agricultural_data_func wCompareF wMaxminF wPolicyF "A" "B" 5 "COMPARE_ALL"
        Option.none Option.none =
      analyze_agricultural_data_func wCompareFRaise wMaxminF wPolicyF "A" "B" 5 "COMPARE_ALL"
        Option.none Option.none := by
  refine ⟨?_, ?_, ?_, ?_⟩
  · exact (config_errors_surfaced wRainEnv wCropEnv "Atlantis" "Punjab" 5 "Pulses"
      wCompareF wCompareFRaise wMaxminF wMaxminF wPolicyF wPolicyF "BOGUS" Option.none
      Option.none).1 rfl
  · exact (config_errors_surfaced wRainEnv wCropEnv "Kerala" "Punjab" 5 "Bogus"
      wCompareF wCompareFRaise wMaxminF wMaxminF wPolicyF wPolicyF "BOGUS" Option.none
      Option.none).2.2.1 rfl cmpDummy
      [CallEvent.rain "Kerala", CallEvent.rain "Punjab", CallEvent.crop "Kerala"]
  · exact (config_errors_surfaced wRainEnv wCropEnv "Kerala" "Punjab" 5 "Pulses"
      wCompareF wCompareFRaise wMaxminF wMaxminF wPolicyF wPolicyF "BOGUS" Option.none
      Option.none).2.2.2.1 (by decide) (by decide) (by decide)
  · exact (config_errors_surfaced wRainEnv wCropEnv "Kerala" "Punjab" 5 "Pulses"
      wCompareF wCompareFRaise wMaxminF wMaxminF wPolicyF wPolicyF "COMPARE_ALL" Option.none
      Option.none).2.2.2.2 rfl (Or.inl rfl)

/-! ### Totality and skip lemmas for the policy analysis (C8) -/

theorem rainKeep_year_ok {sy ey : ℤ} {r r2 : Record}
    (h : rainKeep sy ey r = some r2) :
    ∃ y, pyIntExc (rget r2 "year" (Value.num 0)) = .ok y := by
  rw [rainKeep] at h
  rcases hp : pyIntExc (rget r "year" (Value.num 0)) with e | y
  · rw [hp] at h
    exact Option.noConfusion h
  · rw [hp] at h
    change (if sy ≤ y ∧ y ≤ ey then
      some (rset r "annual" (Value.num (safe_float_convert (rget r "annual" Value.none) 0)))
      else Option.none) = some r2 at h
    split at h
    · injection h with h
      subst h
      refine ⟨y, ?_⟩
      have he : dget (dinsert r "annual"
          (Value.num (safe_float_convert (rget r "annual" Value.none) 0))) "year" (Value.num 0)
          = dget r "year" (Value.num 0) :=
        dget_dinsert_ne r "annual" "year" _ _ (by decide)
      show pyIntExc (dget (dinsert r "annual"
        (Value.num (safe_float_convert (rget r "annual" Value.none) 0))) "year"
        (Value.num 0)) = .ok y
      rw [he]
      exact hp
    · exact Option.noConfusion h

theorem cropKeep_year_ok {sy ey : ℤ} {r r2 : Record}
    (h : cropKeep sy ey r = some r2) :
    ∃ y, pyIntExc (rget r2 "crop_year" (Value.num 0)) = .ok y := by
  rw [cropKeep] at h
  rcases hp : pyIntExc (rget r "crop_year" (Value.num 0)) with e | y
  · rw [hp] at h
    exact Option.noConfusion h
  · rw [hp] at h
    change (if sy ≤ y ∧ y ≤ ey then some (cleanCropRecord r) else Option.none) = some r2 at h
    split at h
    · injection h with h
      subst h
      refine ⟨y, ?_⟩
      show pyIntExc (rget (cleanCropRecord r) "crop_year" (Value.num 0)) = .ok y
      rw [cleanCropRecord]
      simp only [rget, rset]
      rw [dget_dinsert_ne _ "area_" "crop_year" _ _ (by decide),
        dget_dinsert_ne _ "production_" "crop_year" _ _ (by decide)]
      exact hp
    · exact Option.noConfusion h

theorem fetch_crop_data_year_ok {years : ℤ} {gw : ApiResult} (hs : gw.success = true) :
    ∀ r ∈ (fetch_crop_data years gw).data,
      ∃ y, pyIntExc (rget r "crop_year" (Value.num 0)) = .ok y := by
  intro r hr
  rw [fetch_crop_data, if_pos hs] at hr
  obtain ⟨r0, -, hk⟩ := List.mem_filterMap.mp hr
  exact cropKeep_year_ok hk

theorem rainStep_mem {rainEnv : String → ApiResult} {sy ey : ℤ}
    {acc : List Record × List String × List String} {sub : String} {r : Record}
    (hr : r ∈ (rainStep rainEnv sy ey acc sub).1) :
    r ∈ acc.1 ∨ ∃ r0, rainKeep sy ey r0 = some r := by
  rw [rainStep] at hr
  by_cases hsc : (rainEnv sub).success = true
  · rw [if_pos hsc] at hr
    rcases List.mem_append.mp hr with h2 | h2
    · exact Or.inl h2
    · obtain ⟨r0, -, hk⟩ := List.mem_filterMap.mp h2
      exact Or.inr ⟨r0, hk⟩
  · rw [if_neg hsc] at hr
    exact Or.inl hr

theorem rainFold_mem_aux (rainEnv : String → ApiResult) (sy ey : ℤ) :
    ∀ (subs : List String) (acc : List Record × List String × List String),
      ∀ r ∈ (subs.foldl (rainStep rainEnv sy ey) acc).1,
        r ∈ acc.1 ∨ ∃ r0, rainKeep sy ey r0 = some r := by
  intro subs
  induction subs with
  | nil => intro acc r hr; exact Or.inl hr
  | cons sub rest ih =>
    intro acc r hr
    rw [List.foldl_cons] at hr
    rcases ih _ r hr with h1 | h1
    · exact rainStep_mem h1
    · exact Or.inr h1

theorem fetch_rainfall_data_year_ok {rainEnv : String → ApiResult} {subs : List String}
    {years : ℤ} :
    ∀ r ∈ (fetch_rainfall_data rainEnv subs years).data,
      ∃ y, pyIntExc (rget r "year" (Value.num 0)) = .ok y := by
  intro r hr
  rw [fetch_rainfall_data] at hr
  split at hr
  · exact absurd hr (by intro hx; cases hx)
  · have hr' : r ∈ (rainFold rainEnv (CURRENT_ANALYSIS_YEAR - years + 1)
        CURRENT_ANALYSIS_YEAR subs).1 := hr
    rcases rainFold_mem_aux rainEnv (CURRENT_ANALYSIS_YEAR - years + 1) CURRENT_ANALYSIS_YEAR
        subs ([], [], []) r hr' with h1 | h1
    · exact absurd h1 (by intro hx; cases hx)
    · obtain ⟨r0, hk⟩ := h1
      exact rainKeep_year_ok hk

theorem foldlM_ok {α β : Type} (f : β → α → Except PyErr β) (l : List α)
    (h : ∀ b, ∀ a ∈ l, ∃ b2, f b a = .ok b2) : ∀ b, ∃ b2, l.foldlM f b = .ok b2 := by
  induction l with
  | nil => intro b; exact ⟨b, rfl⟩
  | cons a t ih =>
    intro b
    obtain ⟨b1, hb1⟩ := h b a (List.mem_cons_self _ _)
    obtain ⟨b2, hb2⟩ := ih (fun b' a' ha' => h b' a' (List.mem_cons_of_mem _ ha')) b1
    refine ⟨b2, ?_⟩
    rw [List.foldlM_cons, hb1]
    exact hb2

theorem except_bind_ok {α β : Type} (a : α) (f : α → Except PyErr β) :
    (Except.ok a >>= f) = f a := rfl

theorem ite_pure_ok {β : Type} (c : Prop) [Decidable c] (a b : β) :
    ∃ o, (if c then (pure a : Except PyErr β) else pure b) = .ok o := by
  by_cases h : c
  · exact ⟨a, by rw [if_pos h]; rfl⟩
  · exact ⟨b, by rw [if_neg h]; rfl⟩

theorem ite3_pure_ok {β : Type} (c1 c2 : Prop) [Decidable c1] [Decidable c2] (a b c : β) :
    ∃ o, (if c1 then (pure a : Except PyErr β) else if c2 then pure b else pure c) = .ok o := by
  by_cases h1 : c1
  · exact ⟨a, by rw [if_pos h1]; rfl⟩
  · by_cases h2 : c2
    · exact ⟨b, by rw [if_neg h1, if_pos h2]; rfl⟩
    · exact ⟨c, by rw [if_neg h1, if_neg h2]; rfl⟩

theorem rainByYearStep_ok {acc : List (ℤ × List ℚ)} {r : Record}
    (h : ∃ y, pyIntExc (rget r "year" (Value.num 0)) = .ok y) :
    ∃ acc2, rainByYearStep acc r = .ok acc2 := by
  obtain ⟨y, hy⟩ := h
  rw [rainByYearStep, hy, except_bind_ok]
  exact ite_pure_ok _ _ _

theorem waterBucketsStep_ok {acc : List (ℤ × ℚ) × List (ℤ × ℚ)} {r : Record}
    (h : ∃ y, pyIntExc (rget r "crop_year" (Value.num 0)) = .ok y) :
    ∃ acc2, waterBucketsStep acc r = .ok acc2 := by
  obtain ⟨y, hy⟩ := h
  rw [waterBucketsStep, hy, except_bind_ok]
  exact ite3_pure_ok _ _ _ _ _

theorem fetch_crop_data_success (years : ℤ) (gw : ApiResult) :
    (fetch_crop_data years gw).success = gw.success := by
  rw [fetch_crop_data]
  split
  · rfl
  · rfl

theorem analyze_state_ok (rainEnv cropEnv : String → ApiResult)
    (corrF : List ℚ → List ℚ → ℚ) (years : ℤ) (state : String) :
    ∃ o, analyze_state rainEnv cropEnv corrF years state = .ok o := by
  rcases hsub : get_subdivisions_for_state state with _ | ⟨s, ss⟩
  · exact ⟨Option.none, by rw [analyze_state, hsub]; rfl⟩
  · by_cases hfail : (fetch_rainfall_data rainEnv (s :: ss) years).success = false ∨
        (fetch_crop_data years (cropEnv state)).success = false
    · refine ⟨Option.none, ?_⟩
      simp only [analyze_state, hsub]
      rw [if_pos hfail]
      rfl
    · have hcs : (cropEnv state).success = true := by
        rcases hb : (cropEnv state).success with _ | _
        · refine absurd (Or.inr ?_) hfail
          rw [fetch_crop_data_success]
          exact hb
        · rfl
      obtain ⟨rby, hrby⟩ := foldlM_ok rainByYearStep
        (fetch_rainfall_data rainEnv (s :: ss) years).data
        (fun b a ha => rainByYearStep_ok (fetch_rainfall_data_year_ok a ha)) []
      obtain ⟨buckets, hbk⟩ := foldlM_ok waterBucketsStep
        (fetch_crop_data years (cropEnv state)).data
        (fun b a ha => waterBucketsStep_ok (fetch_crop_data_year_ok hcs a ha)) ([], [])
      have hrby2 : rainfall_by_year (fetch_rainfall_data rainEnv (s :: ss) years).data
          = .ok rby := hrby
      simp only [analyze_state, hsub, if_neg hfail, hrby2, except_bind_ok, hbk]
      exact ite_pure_ok _ _ _

theorem policyStep_ok (rainEnv cropEnv : String → ApiResult)
    (corrF : List ℚ → List ℚ → ℚ) (years : ℤ)
    (acc : List (String × StateEntry)) (st : String) :
    ∃ acc2, policyStep rainEnv cropEnv corrF years acc st = .ok acc2 := by
  obtain ⟨o, ho⟩ := analyze_state_ok rainEnv cropEnv corrF years st
  rcases o with _ | v
  · exact ⟨acc, by simp only [policyStep, ho, except_bind_ok]; rfl⟩
  · exact ⟨dinsert acc st v, by simp only [policyStep, ho, except_bind_ok]; rfl⟩

theorem except_bind_err {α β : Type} (e : PyErr) (f : α → Except PyErr β) :
    ((Except.error e : Except PyErr α) >>= f) = .error e := rfl

theorem except_bind_pure {α β : Type} (a : α) (f : α → Except PyErr β) :
    ((pure a : Except PyErr α) >>= f) = f a := rfl

theorem analyze_state_unmapped {rainEnv cropEnv : String → ApiResult}
    {corrF : List ℚ → List ℚ → ℚ} {years : ℤ} {st : String}
    (hsub : get_subdivisions_for_state st = []) :
    analyze_state rainEnv cropEnv corrF years st = .ok Option.none := by
  rw [analyze_state, hsub]
  rfl

theorem analyze_state_fetch_fail {rainEnv cropEnv : String → ApiResult}
    {corrF : List ℚ → List ℚ → ℚ} {years : ℤ} {st s : String} {ss : List String}
    (hsub : get_subdivisions_for_state st = s :: ss)
    (hfail : (fetch_rainfall_data rainEnv (s :: ss) years).success = false ∨
      (fetch_crop_data years (cropEnv st)).success = false) :
    analyze_state rainEnv cropEnv corrF years st = .ok Option.none := by
  simp only [analyze_state, hsub]
  rw [if_pos hfail]
  rfl

theorem analyze_state_few_common {rainEnv cropEnv : String → ApiResult}
    {corrF : List ℚ → List ℚ → ℚ} {years : ℤ} {st s : String} {ss : List String}
    {rby : List (ℤ × List ℚ)} {buckets : List (ℤ × ℚ) × List (ℤ × ℚ)}
    (hsub : get_subdivisions_for_state st = s :: ss)
    (hfail : ¬((fetch_rainfall_data rainEnv (s :: ss) years).success = false ∨
      (fetch_crop_data years (cropEnv st)).success = false))
    (hrby : rainfall_by_year (fetch_rainfall_data rainEnv (s :: ss) years).data = .ok rby)
    (hbk : (fetch_crop_data years (cropEnv st)).data.foldlM waterBucketsStep ([], [])
      = .ok buckets)
    (hlen : (common_years_of (dkeys (avg_rainfall_by_year rby)) (dkeys buckets.1)
      (dkeys buckets.2)).length < 3) :
    analyze_state rainEnv cropEnv corrF years st = .ok Option.none := by
  simp only [analyze_state, hsub, if_neg hfail, hrby, except_bind_ok, hbk]
  rw [if_neg (by omega)]
  rfl

theorem mem_dkeys_dinsert {κ α : Type} [DecidableEq κ] {d : List (κ × α)} {k k0 : κ} {v : α}
    (h : k ∈ dkeys (dinsert d k0 v)) : k ∈ dkeys d ∨ k = k0 := by
  rw [dkeys] at h
  obtain ⟨p, hp, hpk⟩ := List.mem_map.mp h
  rcases mem_dinsert hp with h1 | h1
  · exact Or.inl (hpk ▸ List.mem_map_of_mem _ h1)
  · subst h1
    exact Or.inr hpk.symm

theorem policyStep_keys {rainEnv cropEnv : String → ApiResult}
    {corrF : List ℚ → List ℚ → ℚ} {years : ℤ} {acc a : List (String × StateEntry)}
    {st : String} (h : policyStep rainEnv cropEnv corrF years acc st = .ok a) :
    ∀ k ∈ dkeys a, k ∈ dkeys acc ∨
      (k = st ∧ analyze_state rainEnv cropEnv corrF years st ≠ .ok Option.none) := by
  intro k hk
  rcases ho : analyze_state rainEnv cropEnv corrF years st with e | o
  · rw [policyStep, ho, except_bind_err] at h
    exact Except.noConfusion h
  · rcases o with _ | v
    · rw [policyStep, ho, except_bind_ok] at h
      have ha : Except.ok (ε := PyErr) acc = Except.ok a := h
      injection ha with ha
      subst ha
      exact Or.inl hk
    · rw [policyStep, ho, except_bind_ok] at h
      have ha : Except.ok (ε := PyErr) (dinsert acc st v) = Except.ok a := h
      injection ha with ha
      subst ha
      rcases mem_dkeys_dinsert hk with h1 | h1
      · exact Or.inl h1
      · refine Or.inr ⟨h1, ?_⟩
        intro hc
        injection hc with hc
        exact Option.noConfusion hc

theorem analyze_correlation_inversion {rainEnv cropEnv : String → ApiResult}
    {corrF : List ℚ → List ℚ → ℚ} {state_x state_y : String} {years : ℤ}
    {res : PolicyResult}
    (h : analyze_correlation_and_policy rainEnv cropEnv corrF state_x state_y years
      = .ok res) :
    ∃ acc1 sa, policyStep rainEnv cropEnv corrF years [] state_x = .ok acc1 ∧
      policyStep rainEnv cropEnv corrF years acc1 state_y = .ok sa ∧
      res.state_analysis = sa ∧
      res.policy_recommendations
        = sa.foldl (fun acc p => acc ++ recommend_for p.1 p.2) [] := by
  rw [analyze_correlation_and_policy] at h
  rcases h1 : policyStep rainEnv cropEnv corrF years [] state_x with e | acc1
  · rw [List.foldlM_cons, h1, except_bind_err, except_bind_err] at h
    exact Except.noConfusion h
  · rw [List.foldlM_cons, h1, except_bind_ok] at h
    rcases h2 : policyStep rainEnv cropEnv corrF years acc1 state_y with e | sa
    · rw [List.foldlM_cons, h2, except_bind_err, except_bind_err] at h
      exact Except.noConfusion h
    · rw [List.foldlM_cons, h2, except_bind_ok, List.foldlM_nil, except_bind_pure] at h
      have hres : Except.ok (ε := PyErr)
          ({ states := [state_x, state_y], years_analyzed := years, state_analysis := sa,
             policy_recommendations := sa.foldl (fun acc p => acc ++ recommend_for p.1 p.2) [],
             citations := sa.map (fun p => (p.1, (p.2.src_rainfall, p.2.src_crops))) }
            : PolicyResult) = Except.ok res := h
      injection hres with hres
      subst hres
      exact ⟨acc1, sa, rfl, h2, rfl, rfl⟩

theorem recommend_for_state (s : String) (a : StateEntry) :
    ∀ rec ∈ recommend_for s a, rec.state = s := by
  intro rec hrec
  rw [recommend_for] at hrec
  rcases List.mem_append.mp hrec with h | h
  · rcases List.mem_append.mp h with h1 | h1
    · split at h1
      · rw [List.mem_singleton] at h1
        subst h1
        rfl
      · cases h1
    · split at h1
      · rw [List.mem_singleton] at h1
        subst h1
        rfl
      · cases h1
  · split at h
    · rw [List.mem_singleton] at h
      subst h
      rfl
    · cases h

theorem recs_mem_aux :
    ∀ (l : List (String × StateEntry)) (acc : List Recommendation),
      ∀ rec ∈ l.foldl (fun acc p => acc ++ recommend_for p.1 p.2) acc,
        rec ∈ acc ∨ ∃ p ∈ l, rec.state = p.1 := by
  intro l
  induction l with
  | nil => intro acc rec hrec; exact Or.inl hrec
  | cons p t ih =>
    intro acc rec hrec
    rw [List.foldl_cons] at hrec
    rcases ih _ rec hrec with h1 | h1
    · rcases List.mem_append.mp h1 with h2 | h2
      · exact Or.inl h2
      · exact Or.inr ⟨p, List.mem_cons_self _ _, recommend_for_state p.1 p.2 rec h2⟩
    · obtain ⟨q, hq, hst⟩ := h1
      exact Or.inr ⟨q, List.mem_cons_of_mem _ hq, hst⟩

/-- C8: in `analyze_correlation_and_policy` every call returns a result
dictionary rather than hard-failing; on a successful result a state whose
analysis was skipped (`analyze_state` returned `None`) is absent from
`state_analysis` and every policy recommendation names a state that is
present in `state_analysis`; and `analyze_state` returns `None` — the
state is silently skipped — when the state has no mapped subdivisions,
when one of its two fetches fails, or when fewer than 3 years are common
to its rainfall, high-water-production and low-water-production series. -/
theorem analyze_correlation_and_policy_skip
    (rainEnv cropEnv : String → ApiResult) (corrF : List ℚ → List ℚ → ℚ)
    (state_x state_y : String) (years : ℤ) :
    (∃ res, analyze_correlation_and_policy rainEnv cropEnv corrF state_x state_y years
      = .ok res) ∧
    (∀ res, analyze_correlation_and_policy rainEnv cropEnv corrF state_x state_y years
        = .ok res →
      (∀ st, analyze_state rainEnv cropEnv corrF years st = .ok Option.none →
        st ∉ dkeys res.state_analysis) ∧
      (∀ rec ∈ res.policy_recommendations, rec.state ∈ dkeys res.state_analysis)) ∧
    (∀ st, get_subdivisions_for_state st = [] →
      analyze_state rainEnv cropEnv corrF years st = .ok Option.none) ∧
    (∀ st s ss, get_subdivisions_for_state st = s :: ss →
      ((fetch_rainfall_data rainEnv (s :: ss) years).success = false ∨
        (fetch_crop_data years (cropEnv st)).success = false) →
      analyze_state rainEnv cropEnv corrF years st = .ok Option.none) ∧
    (∀ st s ss rby buckets, get_subdivisions_for_state st = s :: ss →
      ¬((fetch_rainfall_data rainEnv (s :: ss) years).success = false ∨
        (fetch_crop_data years (cropEnv st)).success = false) →
      rainfall_by_year (fetch_rainfall_data rainEnv (s :: ss) years).data = .ok rby →
      (fetch_crop_data years (cropEnv st)).data.foldlM waterBucketsStep ([], [])
        = .ok buckets →
      (common_years_of (dkeys (avg_rainfall_by_year rby)) (dkeys buckets.1)
        (dkeys buckets.2)).length < 3 →
      analyze_state rainEnv cropEnv corrF years st = .ok Option.none) := by
  refine ⟨?_, ?_, ?_, ?_, ?_⟩
  · obtain ⟨acc1, h1⟩ := policyStep_ok rainEnv cropEnv corrF years [] state_x
    obtain ⟨sa, h2⟩ := policyStep_ok rainEnv cropEnv corrF years acc1 state_y
    rcases hres : analyze_correlation_and_policy rainEnv cropEnv corrF state_x state_y years
      with e | res
    · rw [analyze_correlation_and_policy, List.foldlM_cons, h1, except_bind_ok,
        List.foldlM_cons, h2, except_bind_ok, List.foldlM_nil, except_bind_pure] at hres
      exact Except.noConfusion hres
    · exact ⟨res, rfl⟩
  · intro res hres
    obtain ⟨acc1, sa, h1, h2, hsa, hrecs⟩ := analyze_correlation_inversion hres
    constructor
    · intro st hnone hmem
      rw [hsa] at hmem
      rcases policyStep_keys h2 st hmem with hk | ⟨hk, hne⟩
      · rcases policyStep_keys h1 st hk with hk2 | ⟨hk2, hne2⟩
        · cases hk2
        · exact hne2 (hk2 ▸ hnone)
      · exact hne (hk ▸ hnone)
    · intro rec hrec
      rw [hrecs] at hrec
      rcases recs_mem_aux sa [] rec hrec with h | ⟨p, hp, hst⟩
      · cases h
      · rw [hsa, hst]
        exact List.mem_map_of_mem _ hp
  · intro st hsub
    exact analyze_state_unmapped hsub
  · intro st s ss hsub hfail
    exact analyze_state_fetch_fail hsub hfail
  · intro st s ss rby buckets hsub hfail hrby hbk hlen
    exact analyze_state_few_common hsub hfail hrby hbk hlen

/-- Witness rainfall record for the policy analysis (year, annual given). -/
def wPolRainRec (y : ℤ) : Record := [("year", Value.num y), ("annual", Value.num 500)]

/-- Witness high-water crop record (Rice) for a given year. -/
def wPolCropRice (y : ℤ) : Record :=
  [("crop", Value.str "Rice"), ("crop_year", Value.num y), ("production_", Value.num 100)]

/-- Witness low-water crop record (Gram) for a given year. -/
def wPolCropGram (y : ℤ) : Record :=
  [("crop", Value.str "Gram"), ("crop_year", Value.num y), ("production_", Value.num 50)]

/-- Witness rainfall gateway environment: Punjab has three in-window
years, Kerala only two, every other subdivision fails. -/
def wPolRainEnv : String → ApiResult := fun sub =>
  if sub = "Punjab" then
    { success := true, data := [wPolRainRec 2008, wPolRainRec 2009, wPolRainRec 2010],
      total := 3, error := "", url := "rain-Punjab" }
  else if sub = "Kerala" then
    { success := true, data := [wPolRainRec 2009, wPolRainRec 2010],
      total := 2, error := "", url := "rain-Kerala" }
  else
    { success := false, data := [], total := 0, error := "down", url := "" }

/-- Witness crop gateway environment: Punjab has Rice and Gram for three
years, Kerala for two, every other state fails. -/
def wPolCropEnv : String → ApiResult := fun st =>
  if st = "Punjab" then
    { success := true,
      data := [wPolCropRice 2008, wPolCropGram 2008, wPolCropRice 2009, wPolCropGram 2009,
        wPolCropRice 2010, wPolCropGram 2010],
      total := 6, error := "", url := "crop-Punjab" }
  else if st = "Kerala" then
    { success := true,
      data := [wPolCropRice 2009, wPolCropGram 2009, wPolCropRice 2010, wPolCropGram 2010],
      total := 4, error := "", url := "crop-Kerala" }
  else
    { success := false, data := [], total := 0, error := "down", url := "" }

/-- Witness correlation oracle. -/
def wPolCorrF : List ℚ → List ℚ → ℚ := fun _ _ => 0

/-- The witness policy-analysis result (Punjab analyzed, Kerala skipped). -/
def wpolRes : PolicyResult :=
  match analyze_correlation_and_policy wPolRainEnv wPolCropEnv wPolCorrF "Punjab" "Kerala" 5 with
  | .ok r => r
  | _ => { states := [], years_analyzed := 0, state_analysis := [],
           policy_recommendations := [], citations := [] }

/-- The witness per-year rainfall table for Kerala. -/
def wPolRbyK : List (ℤ × List ℚ) :=
  match rainfall_by_year (fetch_rainfall_data wPolRainEnv ["Kerala"] 5).data with
  | .ok r => r
  | _ => []

/-- The witness water-use buckets for Kerala. -/
def wPolBucketsK : List (ℤ × ℚ) × List (ℤ × ℚ) :=
  match (fetch_crop_data 5 (wPolCropEnv "Kerala")).data.foldlM waterBucketsStep ([], []) with
  | .ok b => b
  | _ => ([], [])

/-- C8 witness: with Punjab fully analyzable and Kerala having only two
common years, the call succeeds, Kerala is absent from the analysis,
Punjab is its only key, every recommendation names Punjab, and the
unmapped state Bogus, the fetch-failing Tamil Nadu and the short-data
Kerala are all silently skipped. -/
theorem analyze_correlation_and_policy_skip_witness :
    analyze_correlation_and_policy wPolRainEnv wPolCropEnv wPolCorrF "Punjab" "Kerala" 5
      = .ok wpolRes ∧
    "Kerala" ∉ dkeys wpolRes.state_analysis ∧
    dkeys wpolRes.state_analysis = ["Punjab"] ∧
    (∀ rec ∈ wpolRes.policy_recommendations, rec.state ∈ dkeys wpolRes.state_analysis) ∧
    analyze_state wPolRainEnv wPolCropEnv wPolCorrF 5 "Bogus" = .ok Option.none ∧
    analyze_state wPolRainEnv wPolCropEnv wPolCorrF 5 "Tamil Nadu" = .ok Option.none ∧
    analyze_state wPolRainEnv wPolCropEnv wPolCorrF 5 "Kerala" = .ok Option.none := by
  have T := analyze_correlation_and_policy_skip wPolRainEnv wPolCropEnv wPolCorrF
    "Punjab" "Kerala" 5
  have h0 : analyze_correlation_and_policy wPolRainEnv wPolCropEnv wPolCorrF
      "Punjab" "Kerala" 5 = .ok wpolRes := rfl
  have hker : analyze_state wPolRainEnv wPolCropEnv wPolCorrF 5 "Kerala"
      = .ok Option.none :=
    T.2.2.2.2 "Kerala" "Kerala" [] wPolRbyK wPolBucketsK rfl (by decide) rfl rfl (by decide)
  refine ⟨h0, ?_, ?_, ?_, ?_, ?_, hker⟩
  · exact (T.2.1 wpolRes h0).1 "Kerala" hker
  · rfl
  · exact (T.2.1 wpolRes h0).2
  · exact T.2.2.1 "Bogus" rfl
  · exact T.2.2.2.1 "Tamil Nadu" "Tamil Nadu" [] rfl (Or.inr rfl)
